import Mathlib

set_option maxRecDepth 8000

/-!
Verification of the iris-to-render-data pipeline
(`mediapipe/graphs/iris_tracking/calculators/iris_to_render_data_calculator.cc`).

The embedding models the numeric core of `IrisToRenderDataCalculator`:
the landmark partitioner (`GetLeftIris` / `GetRightIris`), the geometry
estimators (`CalculateIrisDiameter`, `CalculateDepth`), the per-frame
`Process` body with its smoothing filters (`plu_dt_*`, `plu_iris_size`),
the write-once baseline slots (`last_plu_dt_*`), the strabismus warning
counters (`warn_delta_plu_*_count`), and the structural error checks.

Modelling conventions:
* `float` is modelled as `ℚ`; consequently `std::isinf` is identically
  false and the `|| std::isinf(..)` disjuncts of the source collapse.
* `std::sqrt` is an abstract parameter `rsqrt : ℚ → ℚ`; theorems that
  need it assume only `∀ q, 0 ≤ q → 0 ≤ rsqrt q`.
* Text lines are modelled by their numeric payload (a tag plus the list
  of displayed values), not by their formatted strings; render items
  keep their geometric payload but drop color/thickness options, which
  no claim mentions.
-/

namespace IrisVerify

/-- Source constant `kIrisSizeInMM = 11.8`. -/
def kIrisSizeInMM : ℚ := 11.8

/-- Source constant `kDeltaAdjustInMM = 4`. -/
def kDeltaAdjustInMM : ℚ := 4

/-- Source constant `kDeltaStrabismusThresholdInMM = 6`. -/
def kDeltaStrabismusThresholdInMM : ℚ := 6

/-- Source constant `kDepthWeightUpdate = 0.1`. -/
def kDepthWeightUpdate : ℚ := 0.1

/-- Source constant `kNumIrisLandmarksPerEye = 5`. -/
def kNumIrisLandmarksPerEye : ℕ := 5

/-- A normalized 2D landmark (`NormalizedLandmark`, fields `x()`, `y()`). -/
structure Landmark where
  x : ℚ
  y : ℚ
deriving DecidableEq

/-- Default landmark used to totalize indexed access after validation. -/
def dflt : Landmark := ⟨0, 0⟩

/-- Source helper `GetDepth(x0, y0, x1, y1)`: Euclidean distance. -/
def GetDepth (rsqrt : ℚ → ℚ) (x0 y0 x1 y1 : ℚ) : ℚ :=
  rsqrt ((x0 - x1) * (x0 - x1) + (y0 - y1) * (y0 - y1))

/-- Source helper `GetLandmarkDepth(ld0, ld1, image_size)`. -/
def GetLandmarkDepth (rsqrt : ℚ → ℚ) (ld0 ld1 : Landmark) (w h : ℚ) : ℚ :=
  GetDepth rsqrt (ld0.x * w) (ld0.y * h) (ld1.x * w) (ld1.y * h)

/-- Source `CalculateIrisDiameter(landmarks, image_size)`: the partitioned
eye is `[center, top, bottom, left, right]`, the vertical chord uses
indices 1 and 2, the horizontal chord indices 3 and 4. -/
def CalculateIrisDiameter (rsqrt : ℚ → ℚ) (lms : List Landmark) (w h : ℚ) : ℚ :=
  let dist_vert := GetLandmarkDepth rsqrt (lms.getD 1 dflt) (lms.getD 2 dflt) w h
  let dist_hori := GetLandmarkDepth rsqrt (lms.getD 3 dflt) (lms.getD 4 dflt) w h
  (dist_hori + dist_vert) / 2

/-- Source `CalculateDepth(center, focal_length, iris_size, img_w, img_h)`. -/
def CalculateDepth (rsqrt : ℚ → ℚ) (center : Landmark)
    (focal_length iris_size img_w img_h : ℚ) : ℚ :=
  let y := GetDepth rsqrt (img_w / 2) (img_h / 2) (center.x * img_w) (center.y * img_h)
  let x := rsqrt (focal_length * focal_length + y * y)
  kIrisSizeInMM * x / iris_size

/-- Source `GetLeftIris`: picks source indices 0, 2, 4, 3, 1 in the
order `[center, top, bottom, left, right]`. -/
def GetLeftIris (lds : List Landmark) : List Landmark :=
  [lds.getD 0 dflt, lds.getD 2 dflt, lds.getD 4 dflt, lds.getD 3 dflt, lds.getD 1 dflt]

/-- Source `GetRightIris`: picks source indices 5, 7, 9, 6, 8 in the
order `[center, top, bottom, left, right]`. -/
def GetRightIris (lds : List Landmark) : List Landmark :=
  [lds.getD 5 dflt, lds.getD 7 dflt, lds.getD 9 dflt, lds.getD 6 dflt, lds.getD 8 dflt]

/-- Persistent member state of one `IrisToRenderDataCalculator` instance:
18 baseline slots (`last_plu_dt_*`), 9 warning counters, the aggregate
iris size filter and the 18 distance filter channels, in source order. -/
structure DetState where
  last_plu_dt_a_r_x : ℚ
  last_plu_dt_a_r_y : ℚ
  last_plu_dt_a_r : ℚ
  last_plu_dt_a_l_x : ℚ
  last_plu_dt_a_l_y : ℚ
  last_plu_dt_a_l : ℚ
  last_plu_dt_t_r_x : ℚ
  last_plu_dt_t_r_y : ℚ
  last_plu_dt_t_r : ℚ
  last_plu_dt_t_l_x : ℚ
  last_plu_dt_t_l_y : ℚ
  last_plu_dt_t_l : ℚ
  last_plu_dt_n_r_x : ℚ
  last_plu_dt_n_r_y : ℚ
  last_plu_dt_n_r : ℚ
  last_plu_dt_n_l_x : ℚ
  last_plu_dt_n_l_y : ℚ
  last_plu_dt_n_l : ℚ
  warn_delta_plu_r_x_count : ℕ
  warn_delta_plu_l_x_count : ℕ
  warn_delta_plu_r_y_count : ℕ
  warn_delta_plu_l_y_count : ℕ
  warn_delta_plu_r_count : ℕ
  warn_delta_plu_l_count : ℕ
  warn_delta_plu_x_count : ℕ
  warn_delta_plu_y_count : ℕ
  warn_delta_plu_count : ℕ
  plu_iris_size : ℚ
  plu_dt_a_r_x : ℚ
  plu_dt_a_r_y : ℚ
  plu_dt_a_r : ℚ
  plu_dt_a_l_x : ℚ
  plu_dt_a_l_y : ℚ
  plu_dt_a_l : ℚ
  plu_dt_t_r_x : ℚ
  plu_dt_t_r_y : ℚ
  plu_dt_t_r : ℚ
  plu_dt_t_l_x : ℚ
  plu_dt_t_l_y : ℚ
  plu_dt_t_l : ℚ
  plu_dt_n_r_x : ℚ
  plu_dt_n_r_y : ℚ
  plu_dt_n_r : ℚ
  plu_dt_n_l_x : ℚ
  plu_dt_n_l_y : ℚ
  plu_dt_n_l : ℚ
deriving DecidableEq

/-- Member initial values: every filter and baseline slot starts at the
`-1` sentinel, every warning counter at `0`. -/
def initState : DetState where
  last_plu_dt_a_r_x := -1
  last_plu_dt_a_r_y := -1
  last_plu_dt_a_r := -1
  last_plu_dt_a_l_x := -1
  last_plu_dt_a_l_y := -1
  last_plu_dt_a_l := -1
  last_plu_dt_t_r_x := -1
  last_plu_dt_t_r_y := -1
  last_plu_dt_t_r := -1
  last_plu_dt_t_l_x := -1
  last_plu_dt_t_l_y := -1
  last_plu_dt_t_l := -1
  last_plu_dt_n_r_x := -1
  last_plu_dt_n_r_y := -1
  last_plu_dt_n_r := -1
  last_plu_dt_n_l_x := -1
  last_plu_dt_n_l_y := -1
  last_plu_dt_n_l := -1
  warn_delta_plu_r_x_count := 0
  warn_delta_plu_l_x_count := 0
  warn_delta_plu_r_y_count := 0
  warn_delta_plu_l_y_count := 0
  warn_delta_plu_r_count := 0
  warn_delta_plu_l_count := 0
  warn_delta_plu_x_count := 0
  warn_delta_plu_y_count := 0
  warn_delta_plu_count := 0
  plu_iris_size := -1
  plu_dt_a_r_x := -1
  plu_dt_a_r_y := -1
  plu_dt_a_r := -1
  plu_dt_a_l_x := -1
  plu_dt_a_l_y := -1
  plu_dt_a_l := -1
  plu_dt_t_r_x := -1
  plu_dt_t_r_y := -1
  plu_dt_t_r := -1
  plu_dt_t_l_x := -1
  plu_dt_t_l_y := -1
  plu_dt_t_l := -1
  plu_dt_n_r_x := -1
  plu_dt_n_r_y := -1
  plu_dt_n_r := -1
  plu_dt_n_l_x := -1
  plu_dt_n_l_y := -1
  plu_dt_n_l := -1

/-- The ternary update the source repeats for every channel:
`cur < 0 || isinf(cur) ? raw : cur * (1 - 0.1) + raw * 0.1`
(`isinf` is identically false over `ℚ`). -/
def emaUpd (cur raw : ℚ) : ℚ :=
  if cur < 0 then raw else cur * (1 - kDepthWeightUpdate) + raw * kDepthWeightUpdate

/-- Source lines computing `raw_plu_iris_size`: start from the left size
and replace it by the right size when the latter is larger. -/
def rawPluIrisSize (left_size right_size : ℚ) : ℚ :=
  if left_size < right_size then right_size else left_size

/-- Source `plu_adjust_iris_size_ratio = kIrisSizeInMM / plu_iris_size`. -/
def mmScale (v : ℚ) : ℚ := kIrisSizeInMM / v

/-- Raw x-axis distance channel value: `sqrt((p.x - q.x)^2) * image_size_x`. -/
def rawDtX (rsqrt : ℚ → ℚ) (p q : Landmark) (isx : ℚ) : ℚ :=
  rsqrt ((p.x - q.x) * (p.x - q.x)) * isx

/-- Raw y-axis distance channel value: `sqrt((p.y - q.y)^2) * image_size_y`. -/
def rawDtY (rsqrt : ℚ → ℚ) (p q : Landmark) (isy : ℚ) : ℚ :=
  rsqrt ((p.y - q.y) * (p.y - q.y)) * isy

/-- Raw euclidean channel value from the already scaled x/y components. -/
def rawDtE (rsqrt : ℚ → ℚ) (x y : ℚ) : ℚ :=
  rsqrt (x * x + y * y)

/-- The nine per-frame delta locals, in source declaration order. -/
structure Deltas where
  delta_plu_r_x : ℚ
  delta_plu_l_x : ℚ
  delta_plu_r_y : ℚ
  delta_plu_l_y : ℚ
  delta_plu_r : ℚ
  delta_plu_l : ℚ
  delta_plu_x : ℚ
  delta_plu_y : ℚ
  delta_plu : ℚ
deriving DecidableEq

/-- Initial values of the delta locals: the `-100` sentinel. -/
def sentinelDeltas : Deltas :=
  ⟨-100, -100, -100, -100, -100, -100, -100, -100, -100⟩

/-- Delta formulas from the source (computed before the baseline freeze,
so `last_*` here are the pre-frame baseline slots). -/
def computeDeltas (s : DetState) : Deltas where
  delta_plu_r_x :=
    ((s.plu_dt_n_r_x - s.last_plu_dt_n_r_x) - (s.plu_dt_t_r_x - s.last_plu_dt_t_r_x)) *
      kDeltaAdjustInMM / 2
  delta_plu_l_x :=
    ((s.plu_dt_n_l_x - s.last_plu_dt_n_l_x) - (s.plu_dt_t_l_x - s.last_plu_dt_t_l_x)) *
      kDeltaAdjustInMM / 2
  delta_plu_r_y :=
    ((s.plu_dt_n_r_y - s.last_plu_dt_n_r_y) - (s.plu_dt_t_r_y - s.last_plu_dt_t_r_y)) *
      kDeltaAdjustInMM / 2
  delta_plu_l_y :=
    ((s.plu_dt_n_l_y - s.last_plu_dt_n_l_y) - (s.plu_dt_t_l_y - s.last_plu_dt_t_l_y)) *
      kDeltaAdjustInMM / 2
  delta_plu_r :=
    ((s.plu_dt_n_r - s.last_plu_dt_n_r) - (s.plu_dt_t_r - s.last_plu_dt_t_r)) *
      kDeltaAdjustInMM / 2
  delta_plu_l :=
    ((s.plu_dt_n_l - s.last_plu_dt_n_l) - (s.plu_dt_t_l - s.last_plu_dt_t_l)) *
      kDeltaAdjustInMM / 2
  delta_plu_x :=
    (((s.plu_dt_n_l_x - s.last_plu_dt_n_l_x) - (s.plu_dt_t_l_x - s.last_plu_dt_t_l_x)) *
        kDeltaAdjustInMM / 2) -
      (((s.plu_dt_n_r_x - s.last_plu_dt_n_r_x) - (s.plu_dt_t_r_x - s.last_plu_dt_t_r_x)) *
        kDeltaAdjustInMM / 2)
  delta_plu_y :=
    (((s.plu_dt_n_l_y - s.last_plu_dt_n_l_y) - (s.plu_dt_t_l_y - s.last_plu_dt_t_l_y)) *
        kDeltaAdjustInMM / 2) -
      (((s.plu_dt_n_r_y - s.last_plu_dt_n_r_y) - (s.plu_dt_t_r_y - s.last_plu_dt_t_r_y)) *
        kDeltaAdjustInMM / 2)
  delta_plu :=
    (((s.plu_dt_n_l - s.last_plu_dt_n_l) - (s.plu_dt_t_l - s.last_plu_dt_t_l)) *
        kDeltaAdjustInMM / 2) -
      (((s.plu_dt_n_r - s.last_plu_dt_n_r) - (s.plu_dt_t_r - s.last_plu_dt_t_r)) *
        kDeltaAdjustInMM / 2)

/-- Warning counter updates: each counter gains exactly 1 when its delta
strictly exceeds the 6 mm threshold, in source order. -/
def bumpCounters (s : DetState) (d : Deltas) : DetState :=
  { s with
    warn_delta_plu_r_x_count := s.warn_delta_plu_r_x_count +
      (if kDeltaStrabismusThresholdInMM < d.delta_plu_r_x then 1 else 0)
    warn_delta_plu_l_x_count := s.warn_delta_plu_l_x_count +
      (if kDeltaStrabismusThresholdInMM < d.delta_plu_l_x then 1 else 0)
    warn_delta_plu_r_y_count := s.warn_delta_plu_r_y_count +
      (if kDeltaStrabismusThresholdInMM < d.delta_plu_r_y then 1 else 0)
    warn_delta_plu_l_y_count := s.warn_delta_plu_l_y_count +
      (if kDeltaStrabismusThresholdInMM < d.delta_plu_l_y then 1 else 0)
    warn_delta_plu_r_count := s.warn_delta_plu_r_count +
      (if kDeltaStrabismusThresholdInMM < d.delta_plu_r then 1 else 0)
    warn_delta_plu_l_count := s.warn_delta_plu_l_count +
      (if kDeltaStrabismusThresholdInMM < d.delta_plu_l then 1 else 0)
    warn_delta_plu_x_count := s.warn_delta_plu_x_count +
      (if kDeltaStrabismusThresholdInMM < d.delta_plu_x then 1 else 0)
    warn_delta_plu_y_count := s.warn_delta_plu_y_count +
      (if kDeltaStrabismusThresholdInMM < d.delta_plu_y then 1 else 0)
    warn_delta_plu_count := s.warn_delta_plu_count +
      (if kDeltaStrabismusThresholdInMM < d.delta_plu then 1 else 0) }

/-- Baseline freeze from the source: when the `last_plu_dt_a_r` slot is
still the sentinel and the current `plu_dt_a_r` filter value is
positive, copy all 18 current filter values into the baseline slots. -/
def freezeBaseline (s : DetState) : DetState :=
  if s.last_plu_dt_a_r < 0 then
    if 0 < s.plu_dt_a_r then
      { s with
        last_plu_dt_a_r_x := s.plu_dt_a_r_x
        last_plu_dt_a_r_y := s.plu_dt_a_r_y
        last_plu_dt_a_r := s.plu_dt_a_r
        last_plu_dt_a_l_x := s.plu_dt_a_l_x
        last_plu_dt_a_l_y := s.plu_dt_a_l_y
        last_plu_dt_a_l := s.plu_dt_a_l
        last_plu_dt_t_r_x := s.plu_dt_t_r_x
        last_plu_dt_t_r_y := s.plu_dt_t_r_y
        last_plu_dt_t_r := s.plu_dt_t_r
        last_plu_dt_t_l_x := s.plu_dt_t_l_x
        last_plu_dt_t_l_y := s.plu_dt_t_l_y
        last_plu_dt_t_l := s.plu_dt_t_l
        last_plu_dt_n_r_x := s.plu_dt_n_r_x
        last_plu_dt_n_r_y := s.plu_dt_n_r_y
        last_plu_dt_n_r := s.plu_dt_n_r
        last_plu_dt_n_l_x := s.plu_dt_n_l_x
        last_plu_dt_n_l_y := s.plu_dt_n_l_y
        last_plu_dt_n_l := s.plu_dt_n_l }
    else s
  else s

/-- Filter channel updates for the 18 distance channels, in source order:
`a` channels are corner-to-corner (`t` vs `n` point), `t` channels
outer-corner-to-iris-center, `n` channels inner-corner-to-iris-center. -/
def updFilters (rsqrt : ℚ → ℚ) (t_r n_r n_l t_l c_r c_l : Landmark)
    (isx isy : ℚ) (s : DetState) : DetState :=
  { s with
    plu_dt_a_r_x := emaUpd s.plu_dt_a_r_x (rawDtX rsqrt t_r n_r isx)
    plu_dt_a_r_y := emaUpd s.plu_dt_a_r_y (rawDtY rsqrt t_r n_r isy)
    plu_dt_a_r := emaUpd s.plu_dt_a_r
      (rawDtE rsqrt (rawDtX rsqrt t_r n_r isx) (rawDtY rsqrt t_r n_r isy))
    plu_dt_a_l_x := emaUpd s.plu_dt_a_l_x (rawDtX rsqrt t_l n_l isx)
    plu_dt_a_l_y := emaUpd s.plu_dt_a_l_y (rawDtY rsqrt t_l n_l isy)
    plu_dt_a_l := emaUpd s.plu_dt_a_l
      (rawDtE rsqrt (rawDtX rsqrt t_l n_l isx) (rawDtY rsqrt t_l n_l isy))
    plu_dt_t_r_x := emaUpd s.plu_dt_t_r_x (rawDtX rsqrt t_r c_r isx)
    plu_dt_t_r_y := emaUpd s.plu_dt_t_r_y (rawDtY rsqrt t_r c_r isy)
    plu_dt_t_r := emaUpd s.plu_dt_t_r
      (rawDtE rsqrt (rawDtX rsqrt t_r c_r isx) (rawDtY rsqrt t_r c_r isy))
    plu_dt_t_l_x := emaUpd s.plu_dt_t_l_x (rawDtX rsqrt t_l c_l isx)
    plu_dt_t_l_y := emaUpd s.plu_dt_t_l_y (rawDtY rsqrt t_l c_l isy)
    plu_dt_t_l := emaUpd s.plu_dt_t_l
      (rawDtE rsqrt (rawDtX rsqrt t_l c_l isx) (rawDtY rsqrt t_l c_l isy))
    plu_dt_n_r_x := emaUpd s.plu_dt_n_r_x (rawDtX rsqrt n_r c_r isx)
    plu_dt_n_r_y := emaUpd s.plu_dt_n_r_y (rawDtY rsqrt n_r c_r isy)
    plu_dt_n_r := emaUpd s.plu_dt_n_r
      (rawDtE rsqrt (rawDtX rsqrt n_r c_r isx) (rawDtY rsqrt n_r c_r isy))
    plu_dt_n_l_x := emaUpd s.plu_dt_n_l_x (rawDtX rsqrt n_l c_l isx)
    plu_dt_n_l_y := emaUpd s.plu_dt_n_l_y (rawDtY rsqrt n_l c_l isy)
    plu_dt_n_l := emaUpd s.plu_dt_n_l
      (rawDtE rsqrt (rawDtX rsqrt n_l c_l isx) (rawDtY rsqrt n_l c_l isy)) }

/-- A diagnostic text line, modelled by its numeric payload: the two
depth lines carry the rounded centimeter value, the 16 detector lines a
tag (0 to 15 in emission order) and the displayed numbers. -/
inductive TextLine where
  | leftDepthCm : ℤ → TextLine
  | rightDepthCm : ℤ → TextLine
  | det : ℕ → List ℚ → TextLine
deriving DecidableEq

/-- The 16 detector diagnostic lines, in source emission order. -/
def detLines (scale left_size right_size : ℚ) (s : DetState) (d : Deltas) :
    List TextLine :=
  [TextLine.det 0 [left_size * scale],
   TextLine.det 1 [s.plu_dt_a_l, s.plu_dt_a_l_x, s.plu_dt_a_l_y],
   TextLine.det 2 [s.plu_dt_t_l, s.plu_dt_t_l_x, s.plu_dt_t_l_y],
   TextLine.det 3 [s.plu_dt_n_l, s.plu_dt_n_l_x, s.plu_dt_n_l_y],
   TextLine.det 4 [d.delta_plu_l, d.delta_plu_l_x, d.delta_plu_l_y],
   TextLine.det 5 [(s.warn_delta_plu_l_count : ℚ), (s.warn_delta_plu_l_x_count : ℚ),
     (s.warn_delta_plu_l_y_count : ℚ)],
   TextLine.det 6 [right_size * scale],
   TextLine.det 7 [s.plu_dt_a_r, s.plu_dt_a_r_x, s.plu_dt_a_r_y],
   TextLine.det 8 [s.plu_dt_t_r, s.plu_dt_t_r_x, s.plu_dt_t_r_y],
   TextLine.det 9 [s.plu_dt_n_r, s.plu_dt_n_r_x, s.plu_dt_n_r_y],
   TextLine.det 10 [d.delta_plu_r, d.delta_plu_r_x, d.delta_plu_r_y],
   TextLine.det 11 [(s.warn_delta_plu_r_count : ℚ), (s.warn_delta_plu_r_x_count : ℚ),
     (s.warn_delta_plu_r_y_count : ℚ)],
   TextLine.det 12 [s.plu_iris_size * scale],
   TextLine.det 13 [d.delta_plu, d.delta_plu_x, d.delta_plu_y],
   TextLine.det 14 [(s.warn_delta_plu_count : ℚ), (s.warn_delta_plu_x_count : ℚ),
     (s.warn_delta_plu_y_count : ℚ)],
   TextLine.det 15 [kIrisSizeInMM, kDeltaAdjustInMM, kDeltaStrabismusThresholdInMM]]

/-- First stage of the detector block (source lines 318 to 464): smooth
the aggregate iris size with the raw maximum, derive the millimeter
scale and the scaled image dimensions, and update all 18 distance
filter channels. -/
def detS1 (rsqrt : ℚ → ℚ) (t_r n_r n_l t_l c_r c_l : Landmark)
    (w h left_size right_size : ℚ) (s : DetState) : DetState :=
  let s0 := { s with
    plu_iris_size := emaUpd s.plu_iris_size (rawPluIrisSize left_size right_size) }
  let scale := mmScale s0.plu_iris_size
  updFilters rsqrt t_r n_r n_l t_l c_r c_l (w * scale) (h * scale) s0

/-- Delta locals of the detector block (source lines 466 to 487): the
formulas when both the baseline gate and the current corner-to-corner
filter are positive, the `-100` sentinel otherwise. -/
def detD (rsqrt : ℚ → ℚ) (t_r n_r n_l t_l c_r c_l : Landmark)
    (w h left_size right_size : ℚ) (s : DetState) : Deltas :=
  let s1 := detS1 rsqrt t_r n_r n_l t_l c_r c_l w h left_size right_size s
  if 0 < s1.last_plu_dt_a_r ∧ 0 < s1.plu_dt_a_r
  then computeDeltas s1 else sentinelDeltas

/-- Final state of the detector block: counters bumped by the deltas
(source lines 489 to 515), then the one-time baseline freeze (source
lines 517 to 544). -/
def detFinal (rsqrt : ℚ → ℚ) (t_r n_r n_l t_l c_r c_l : Landmark)
    (w h left_size right_size : ℚ) (s : DetState) : DetState :=
  freezeBaseline
    (bumpCounters (detS1 rsqrt t_r n_r n_l t_l c_r c_l w h left_size right_size s)
      (detD rsqrt t_r n_r n_l t_l c_r c_l w h left_size right_size s))

/-- Detector block of `Process` (source lines 313 to 599, inside the
face-present branch): compute the raw aggregate iris size, and when it
is positive update all filters, compute the deltas, bump the counters,
freeze the baseline, and emit the 16 diagnostic lines. Returns the new
state, the delta locals when the block ran, and the emitted lines. -/
def detectorStep (rsqrt : ℚ → ℚ) (t_r n_r n_l t_l c_r c_l : Landmark)
    (w h : ℚ) (left_size right_size : ℚ) (s : DetState) :
    DetState × Option Deltas × List TextLine :=
  if 0 < rawPluIrisSize left_size right_size then
    let s1 := detS1 rsqrt t_r n_r n_l t_l c_r c_l w h left_size right_size s
    let d := detD rsqrt t_r n_r n_l t_l c_r c_l w h left_size right_size s
    let s3 := detFinal rsqrt t_r n_r n_l t_l c_r c_l w h left_size right_size s
    (s3, some d, detLines (mmScale s1.plu_iris_size) left_size right_size s3 d)
  else (s, none, [])

/-- A drawable item: oval (rectangle bounds), point, or text line. -/
inductive RenderItem where
  | oval : ℚ → ℚ → ℚ → ℚ → RenderItem
  | point : ℚ → ℚ → RenderItem
  | text : TextLine → RenderItem
deriving DecidableEq

/-- Does the item stem from the deviation detector diagnostic lines? -/
def isDetText : RenderItem → Bool
  | RenderItem.text (TextLine.det _ _) => true
  | _ => false

/-- Source `RenderIris`: one oval centered at the iris center with
radius `iris_size / 2`, followed by one point per landmark. -/
def RenderIris (lms : List Landmark) (w h : ℚ) (iris_size : ℚ) : List RenderItem :=
  let r := iris_size / 2
  let c := lms.getD 0 dflt
  RenderItem.oval (c.y - r / h) (c.y + r / h) (c.x - r / w) (c.x + r / w) ::
    lms.map (fun l => RenderItem.point l.x l.y)

/-- Face corner extraction (source lines 286 to 289): fixed indices 263
(`plu_t_r`), 362 (`plu_n_r`), 133 (`plu_n_l`), 33 (`plu_t_l`); any
out-of-range access is a hard failure, modelled as `none`. -/
def getFaceCorners (lds : List Landmark) :
    Option (Landmark × Landmark × Landmark × Landmark) :=
  match lds.get? 263, lds.get? 362, lds.get? 133, lds.get? 33 with
  | some t_r, some n_r, some n_l, some t_l => some (t_r, n_r, n_l, t_l)
  | _, _, _, _ => none

/-- One frame's inputs: iris landmarks, face landmarks and image size
streams (empty modelled as `none`), and the optional precomputed depth
values. -/
structure FrameInput where
  iris : Option (List Landmark)
  face : Option (List Landmark)
  imageSize : Option (ℤ × ℤ)
  leftDepth : Option ℚ
  rightDepth : Option ℚ
deriving DecidableEq

/-- Structural per-frame errors of `Process`. -/
inductive PErr where
  | wrongIrisCount : PErr
  | missingImageSize : PErr
  | faceIndexOutOfRange : PErr
deriving DecidableEq

/-- Result of one `Process` call: either success (with the emitted
render items, `none` when the iris input was empty and the frame was
skipped) or a structural error; both carry the post-call state. -/
inductive PResult where
  | ok : Option (List RenderItem) → DetState → PResult
  | err : PErr → DetState → PResult
deriving DecidableEq

/-- Post-call persistent state of a `Process` result. -/
def stateOf : PResult → DetState
  | PResult.ok _ s => s
  | PResult.err _ s => s

/-- Emitted output of a `Process` result (`none` on error or skip). -/
def outputOf : PResult → Option (List RenderItem)
  | PResult.ok o _ => o
  | PResult.err _ _ => none

/-- Depth text lines (source lines 256 to 277): one line per present
depth input, carrying `round(depth / 10)` centimeters. The source also
drops infinite values; over `ℚ` that test is identically false. -/
def depthLines (inp : FrameInput) : List TextLine :=
  (match inp.leftDepth with
   | some v => [TextLine.leftDepthCm (round (v / 10))]
   | none => []) ++
  (match inp.rightDepth with
   | some v => [TextLine.rightDepthCm (round (v / 10))]
   | none => [])

/-- The four face corner points drawn when face landmarks are present. -/
def facePoints (t_r n_r n_l t_l : Landmark) : List RenderItem :=
  [RenderItem.point t_r.x t_r.y, RenderItem.point n_r.x n_r.y,
   RenderItem.point n_l.x n_l.y, RenderItem.point t_l.x t_l.y]

/-- One `IrisToRenderDataCalculator::Process` call. Order follows the
source: skip when the iris stream is empty; check the iris landmark
count (10) and the image size presence; partition the irises, compute
the diameters and the iris render items; collect the depth lines; when
face landmarks are present extract the four fixed-index corners (hard
failure if out of range), draw them, and run the detector block; finally
append every text line after the shape items. -/
def Process (rsqrt : ℚ → ℚ) (inp : FrameInput) (s : DetState) : PResult :=
  match inp.iris with
  | none => PResult.ok none s
  | some iris_landmarks =>
    if iris_landmarks.length = kNumIrisLandmarksPerEye * 2 then
      match inp.imageSize with
      | none => PResult.err PErr.missingImageSize s
      | some wh =>
        let w : ℚ := (wh.1 : ℚ)
        let h : ℚ := (wh.2 : ℚ)
        let left_iris := GetLeftIris iris_landmarks
        let right_iris := GetRightIris iris_landmarks
        let left_iris_size := CalculateIrisDiameter rsqrt left_iris w h
        let right_iris_size := CalculateIrisDiameter rsqrt right_iris w h
        let base := RenderIris left_iris w h left_iris_size ++
          RenderIris right_iris w h right_iris_size
        let dls := depthLines inp
        match inp.face with
        | none => PResult.ok (some (base ++ dls.map RenderItem.text)) s
        | some face =>
          match getFaceCorners face with
          | none => PResult.err PErr.faceIndexOutOfRange s
          | some (t_r, n_r, n_l, t_l) =>
            let plu_c_r := right_iris.getD 0 dflt
            let plu_c_l := left_iris.getD 0 dflt
            let res := detectorStep rsqrt t_r n_r n_l t_l plu_c_r plu_c_l
              w h left_iris_size right_iris_size s
            PResult.ok
              (some (base ++ facePoints t_r n_r n_l t_l ++
                (dls ++ res.2.2).map RenderItem.text))
              res.1
    else PResult.err PErr.wrongIrisCount s

/-- Fold `Process` over a list of frames, keeping only the state. -/
def runFrames (rsqrt : ℚ → ℚ) : DetState → List FrameInput → DetState
  | s, [] => s
  | s, f :: fs => runFrames rsqrt (stateOf (Process rsqrt f s)) fs

/-- State invariant of a pipeline instance: the `last_plu_dt_a_r`
baseline gate and the `plu_dt_a_r` filter are either both still
non-positive (baseline not yet frozen) or both positive (frozen). -/
abbrev INV (s : DetState) : Prop :=
  (s.last_plu_dt_a_r < 0 ∧ s.plu_dt_a_r ≤ 0) ∨
    (0 < s.last_plu_dt_a_r ∧ 0 < s.plu_dt_a_r)

/-- The 18 baseline slots of a state, in source declaration order. -/
def lastVec (s : DetState) : List ℚ :=
  [s.last_plu_dt_a_r_x, s.last_plu_dt_a_r_y, s.last_plu_dt_a_r,
   s.last_plu_dt_a_l_x, s.last_plu_dt_a_l_y, s.last_plu_dt_a_l,
   s.last_plu_dt_t_r_x, s.last_plu_dt_t_r_y, s.last_plu_dt_t_r,
   s.last_plu_dt_t_l_x, s.last_plu_dt_t_l_y, s.last_plu_dt_t_l,
   s.last_plu_dt_n_r_x, s.last_plu_dt_n_r_y, s.last_plu_dt_n_r,
   s.last_plu_dt_n_l_x, s.last_plu_dt_n_l_y, s.last_plu_dt_n_l]

/-- The 18 live filter channels of a state, in the same order. -/
def filtVec (s : DetState) : List ℚ :=
  [s.plu_dt_a_r_x, s.plu_dt_a_r_y, s.plu_dt_a_r,
   s.plu_dt_a_l_x, s.plu_dt_a_l_y, s.plu_dt_a_l,
   s.plu_dt_t_r_x, s.plu_dt_t_r_y, s.plu_dt_t_r,
   s.plu_dt_t_l_x, s.plu_dt_t_l_y, s.plu_dt_t_l,
   s.plu_dt_n_r_x, s.plu_dt_n_r_y, s.plu_dt_n_r,
   s.plu_dt_n_l_x, s.plu_dt_n_l_y, s.plu_dt_n_l]

/-- The 9 warning counters of a state, in source declaration order. -/
def warnVec (s : DetState) : List ℕ :=
  [s.warn_delta_plu_r_x_count, s.warn_delta_plu_l_x_count,
   s.warn_delta_plu_r_y_count, s.warn_delta_plu_l_y_count,
   s.warn_delta_plu_r_count, s.warn_delta_plu_l_count,
   s.warn_delta_plu_x_count, s.warn_delta_plu_y_count,
   s.warn_delta_plu_count]

/-- The 9 counter increments a frame's deltas induce (none when the
detector block did not run). -/
def bumpVec : Option Deltas → List ℕ
  | none => [0, 0, 0, 0, 0, 0, 0, 0, 0]
  | some d =>
    [if kDeltaStrabismusThresholdInMM < d.delta_plu_r_x then 1 else 0,
     if kDeltaStrabismusThresholdInMM < d.delta_plu_l_x then 1 else 0,
     if kDeltaStrabismusThresholdInMM < d.delta_plu_r_y then 1 else 0,
     if kDeltaStrabismusThresholdInMM < d.delta_plu_l_y then 1 else 0,
     if kDeltaStrabismusThresholdInMM < d.delta_plu_r then 1 else 0,
     if kDeltaStrabismusThresholdInMM < d.delta_plu_l then 1 else 0,
     if kDeltaStrabismusThresholdInMM < d.delta_plu_x then 1 else 0,
     if kDeltaStrabismusThresholdInMM < d.delta_plu_y then 1 else 0,
     if kDeltaStrabismusThresholdInMM < d.delta_plu then 1 else 0]

section BasicLemmas

lemma emaUpd_of_neg {cur : ℚ} (raw : ℚ) (h : cur < 0) : emaUpd cur raw = raw := by
  unfold emaUpd; rw [if_pos h]

lemma emaUpd_of_not_neg {cur : ℚ} (raw : ℚ) (h : ¬ cur < 0) :
    emaUpd cur raw = cur * (1 - kDepthWeightUpdate) + raw * kDepthWeightUpdate := by
  unfold emaUpd; rw [if_neg h]

lemma emaUpd_pos {cur raw : ℚ} (hc : 0 < cur) (hr : 0 ≤ raw) : 0 < emaUpd cur raw := by
  rw [emaUpd_of_not_neg raw (not_lt.mpr hc.le)]
  unfold kDepthWeightUpdate
  nlinarith

lemma emaUpd_nonneg_of_nonpos {cur raw : ℚ} (hc : cur ≤ 0) (hr : 0 ≤ raw) :
    0 ≤ emaUpd cur raw := by
  unfold emaUpd
  split
  · exact hr
  · have h0 : 0 ≤ cur := le_of_not_lt (by assumption)
    have hc0 : cur = 0 := le_antisymm hc h0
    unfold kDepthWeightUpdate
    nlinarith

lemma rawDtE_nonneg (rsqrt : ℚ → ℚ) (hs : ∀ q, 0 ≤ q → 0 ≤ rsqrt q) (x y : ℚ) :
    0 ≤ rawDtE rsqrt x y := by
  unfold rawDtE
  exact hs _ (by nlinarith [mul_self_nonneg x, mul_self_nonneg y])

lemma lastVec_updFilters (rsqrt : ℚ → ℚ) (t_r n_r n_l t_l c_r c_l : Landmark)
    (isx isy : ℚ) (s : DetState) :
    lastVec (updFilters rsqrt t_r n_r n_l t_l c_r c_l isx isy s) = lastVec s := rfl

lemma lastVec_bumpCounters (s : DetState) (d : Deltas) :
    lastVec (bumpCounters s d) = lastVec s := rfl

lemma filtVec_bumpCounters (s : DetState) (d : Deltas) :
    filtVec (bumpCounters s d) = filtVec s := rfl

lemma filtVec_freezeBaseline (s : DetState) :
    filtVec (freezeBaseline s) = filtVec s := by
  unfold freezeBaseline; split <;> [skip; rfl]; split <;> rfl

lemma warnVec_freezeBaseline (s : DetState) :
    warnVec (freezeBaseline s) = warnVec s := by
  unfold freezeBaseline; split <;> [skip; rfl]; split <;> rfl

lemma plu_iris_size_freezeBaseline (s : DetState) :
    (freezeBaseline s).plu_iris_size = s.plu_iris_size := by
  unfold freezeBaseline; split <;> [skip; rfl]; split <;> rfl

lemma plu_dt_a_r_freezeBaseline (s : DetState) :
    (freezeBaseline s).plu_dt_a_r = s.plu_dt_a_r := by
  unfold freezeBaseline; split <;> [skip; rfl]; split <;> rfl

lemma freezeBaseline_of_not_neg {s : DetState} (h : ¬ s.last_plu_dt_a_r < 0) :
    freezeBaseline s = s := by
  unfold freezeBaseline; rw [if_neg h]

lemma freezeBaseline_of_neg_not_pos {s : DetState} (h1 : s.last_plu_dt_a_r < 0)
    (h2 : ¬ 0 < s.plu_dt_a_r) : freezeBaseline s = s := by
  unfold freezeBaseline; rw [if_pos h1, if_neg h2]

lemma lastVec_freezeBaseline_of_neg_pos {s : DetState} (h1 : s.last_plu_dt_a_r < 0)
    (h2 : 0 < s.plu_dt_a_r) :
    lastVec (freezeBaseline s) = filtVec s ∧
      (freezeBaseline s).last_plu_dt_a_r = s.plu_dt_a_r := by
  unfold freezeBaseline; rw [if_pos h1, if_pos h2]; exact ⟨rfl, rfl⟩

lemma detectorStep_of_not_pos (rsqrt : ℚ → ℚ) (t_r n_r n_l t_l c_r c_l : Landmark)
    (w h lsz rsz : ℚ) (s : DetState) (hraw : ¬ 0 < rawPluIrisSize lsz rsz) :
    detectorStep rsqrt t_r n_r n_l t_l c_r c_l w h lsz rsz s = (s, none, []) := by
  unfold detectorStep; rw [if_neg hraw]

lemma detectorStep_of_pos (rsqrt : ℚ → ℚ) (t_r n_r n_l t_l c_r c_l : Landmark)
    (w h lsz rsz : ℚ) (s : DetState) (hraw : 0 < rawPluIrisSize lsz rsz) :
    detectorStep rsqrt t_r n_r n_l t_l c_r c_l w h lsz rsz s =
      (detFinal rsqrt t_r n_r n_l t_l c_r c_l w h lsz rsz s,
       some (detD rsqrt t_r n_r n_l t_l c_r c_l w h lsz rsz s),
       detLines (mmScale (detS1 rsqrt t_r n_r n_l t_l c_r c_l w h lsz rsz s).plu_iris_size)
         lsz rsz (detFinal rsqrt t_r n_r n_l t_l c_r c_l w h lsz rsz s)
         (detD rsqrt t_r n_r n_l t_l c_r c_l w h lsz rsz s)) := by
  unfold detectorStep; rw [if_pos hraw]

lemma detS1_last (rsqrt : ℚ → ℚ) (t_r n_r n_l t_l c_r c_l : Landmark)
    (w h lsz rsz : ℚ) (s : DetState) :
    lastVec (detS1 rsqrt t_r n_r n_l t_l c_r c_l w h lsz rsz s) = lastVec s := rfl

lemma detS1_warn (rsqrt : ℚ → ℚ) (t_r n_r n_l t_l c_r c_l : Landmark)
    (w h lsz rsz : ℚ) (s : DetState) :
    warnVec (detS1 rsqrt t_r n_r n_l t_l c_r c_l w h lsz rsz s) = warnVec s := rfl

lemma detS1_plu_dt_a_r (rsqrt : ℚ → ℚ) (t_r n_r n_l t_l c_r c_l : Landmark)
    (w h lsz rsz : ℚ) (s : DetState) :
    (detS1 rsqrt t_r n_r n_l t_l c_r c_l w h lsz rsz s).plu_dt_a_r =
      emaUpd s.plu_dt_a_r
        (rawDtE rsqrt
          (rawDtX rsqrt t_r n_r
            (w * mmScale (emaUpd s.plu_iris_size (rawPluIrisSize lsz rsz))))
          (rawDtY rsqrt t_r n_r
            (h * mmScale (emaUpd s.plu_iris_size (rawPluIrisSize lsz rsz))))) := rfl

lemma detS1_plu_dt_a_r_pos (rsqrt : ℚ → ℚ) (hs : ∀ q, 0 ≤ q → 0 ≤ rsqrt q)
    (t_r n_r n_l t_l c_r c_l : Landmark) (w h lsz rsz : ℚ) (s : DetState)
    (hp : 0 < s.plu_dt_a_r) :
    0 < (detS1 rsqrt t_r n_r n_l t_l c_r c_l w h lsz rsz s).plu_dt_a_r := by
  rw [detS1_plu_dt_a_r]
  exact emaUpd_pos hp (rawDtE_nonneg rsqrt hs _ _)

lemma detS1_plu_dt_a_r_nonneg (rsqrt : ℚ → ℚ) (hs : ∀ q, 0 ≤ q → 0 ≤ rsqrt q)
    (t_r n_r n_l t_l c_r c_l : Landmark) (w h lsz rsz : ℚ) (s : DetState)
    (hp : s.plu_dt_a_r ≤ 0) :
    0 ≤ (detS1 rsqrt t_r n_r n_l t_l c_r c_l w h lsz rsz s).plu_dt_a_r := by
  rw [detS1_plu_dt_a_r]
  exact emaUpd_nonneg_of_nonpos hp (rawDtE_nonneg rsqrt hs _ _)

lemma lastVec_last_a_r {s t : DetState} (hl : lastVec s = lastVec t) :
    s.last_plu_dt_a_r = t.last_plu_dt_a_r := by
  simpa [lastVec] using congrArg (fun l => l.getD 2 0) hl

lemma detFinal_last_of_pos (rsqrt : ℚ → ℚ) (t_r n_r n_l t_l c_r c_l : Landmark)
    (w h lsz rsz : ℚ) (s : DetState) (hl : 0 < s.last_plu_dt_a_r) :
    lastVec (detFinal rsqrt t_r n_r n_l t_l c_r c_l w h lsz rsz s) = lastVec s := by
  unfold detFinal
  rw [freezeBaseline_of_not_neg]
  · exact (lastVec_bumpCounters _ _).trans (detS1_last _ _ _ _ _ _ _ _ _ _ _ _)
  · have : (bumpCounters (detS1 rsqrt t_r n_r n_l t_l c_r c_l w h lsz rsz s)
        (detD rsqrt t_r n_r n_l t_l c_r c_l w h lsz rsz s)).last_plu_dt_a_r =
        s.last_plu_dt_a_r := by
      exact lastVec_last_a_r ((lastVec_bumpCounters _ _).trans
        (detS1_last rsqrt t_r n_r n_l t_l c_r c_l w h lsz rsz s))
    rw [this]
    exact not_lt.mpr hl.le

lemma bumpCounters_plu_dt_a_r (s : DetState) (d : Deltas) :
    (bumpCounters s d).plu_dt_a_r = s.plu_dt_a_r := rfl

lemma bumpCounters_last_a_r (s : DetState) (d : Deltas) :
    (bumpCounters s d).last_plu_dt_a_r = s.last_plu_dt_a_r := rfl

lemma detS1_last_a_r (rsqrt : ℚ → ℚ) (t_r n_r n_l t_l c_r c_l : Landmark)
    (w h lsz rsz : ℚ) (s : DetState) :
    (detS1 rsqrt t_r n_r n_l t_l c_r c_l w h lsz rsz s).last_plu_dt_a_r =
      s.last_plu_dt_a_r := rfl

lemma detFinal_plu_dt_a_r (rsqrt : ℚ → ℚ) (t_r n_r n_l t_l c_r c_l : Landmark)
    (w h lsz rsz : ℚ) (s : DetState) :
    (detFinal rsqrt t_r n_r n_l t_l c_r c_l w h lsz rsz s).plu_dt_a_r =
      (detS1 rsqrt t_r n_r n_l t_l c_r c_l w h lsz rsz s).plu_dt_a_r := by
  unfold detFinal
  rw [plu_dt_a_r_freezeBaseline, bumpCounters_plu_dt_a_r]

lemma filtVec_plu_a_r {s t : DetState} (hl : filtVec s = filtVec t) :
    s.plu_dt_a_r = t.plu_dt_a_r := by
  simpa [filtVec] using congrArg (fun l => l.getD 2 0) hl

lemma detFinal_last_of_plu_nonpos (rsqrt : ℚ → ℚ)
    (t_r n_r n_l t_l c_r c_l : Landmark) (w h lsz rsz : ℚ) (s : DetState)
    (hp : (detFinal rsqrt t_r n_r n_l t_l c_r c_l w h lsz rsz s).plu_dt_a_r ≤ 0) :
    lastVec (detFinal rsqrt t_r n_r n_l t_l c_r c_l w h lsz rsz s) = lastVec s := by
  have hp2 : ¬ 0 < (bumpCounters (detS1 rsqrt t_r n_r n_l t_l c_r c_l w h lsz rsz s)
      (detD rsqrt t_r n_r n_l t_l c_r c_l w h lsz rsz s)).plu_dt_a_r := by
    rw [detFinal_plu_dt_a_r] at hp
    rw [bumpCounters_plu_dt_a_r]
    exact not_lt.mpr hp
  unfold detFinal
  by_cases hl : (bumpCounters (detS1 rsqrt t_r n_r n_l t_l c_r c_l w h lsz rsz s)
      (detD rsqrt t_r n_r n_l t_l c_r c_l w h lsz rsz s)).last_plu_dt_a_r < 0
  · rw [freezeBaseline_of_neg_not_pos hl hp2]
    exact (lastVec_bumpCounters _ _).trans (detS1_last _ _ _ _ _ _ _ _ _ _ _ _)
  · rw [freezeBaseline_of_not_neg hl]
    exact (lastVec_bumpCounters _ _).trans (detS1_last _ _ _ _ _ _ _ _ _ _ _ _)

lemma detFinal_freeze (rsqrt : ℚ → ℚ)
    (t_r n_r n_l t_l c_r c_l : Landmark) (w h lsz rsz : ℚ) (s : DetState)
    (hl : s.last_plu_dt_a_r < 0)
    (hp : 0 < (detS1 rsqrt t_r n_r n_l t_l c_r c_l w h lsz rsz s).plu_dt_a_r) :
    lastVec (detFinal rsqrt t_r n_r n_l t_l c_r c_l w h lsz rsz s) =
      filtVec (detFinal rsqrt t_r n_r n_l t_l c_r c_l w h lsz rsz s) ∧
    0 < (detFinal rsqrt t_r n_r n_l t_l c_r c_l w h lsz rsz s).last_plu_dt_a_r := by
  have hl2 : (bumpCounters (detS1 rsqrt t_r n_r n_l t_l c_r c_l w h lsz rsz s)
      (detD rsqrt t_r n_r n_l t_l c_r c_l w h lsz rsz s)).last_plu_dt_a_r < 0 := by
    rw [bumpCounters_last_a_r, detS1_last_a_r]; exact hl
  have hp2 : 0 < (bumpCounters (detS1 rsqrt t_r n_r n_l t_l c_r c_l w h lsz rsz s)
      (detD rsqrt t_r n_r n_l t_l c_r c_l w h lsz rsz s)).plu_dt_a_r := by
    rw [bumpCounters_plu_dt_a_r]; exact hp
  obtain ⟨hcopy, hset⟩ := lastVec_freezeBaseline_of_neg_pos hl2 hp2
  refine ⟨?_, ?_⟩
  · unfold detFinal
    rw [hcopy, filtVec_freezeBaseline, filtVec_bumpCounters]
  · show 0 < (detFinal rsqrt t_r n_r n_l t_l c_r c_l w h lsz rsz s).last_plu_dt_a_r
    unfold detFinal
    rw [hset, bumpCounters_plu_dt_a_r]
    exact hp

lemma INV_detFinal (rsqrt : ℚ → ℚ) (hs : ∀ q, 0 ≤ q → 0 ≤ rsqrt q)
    (t_r n_r n_l t_l c_r c_l : Landmark) (w h lsz rsz : ℚ) (s : DetState)
    (hINV : INV s) :
    INV (detFinal rsqrt t_r n_r n_l t_l c_r c_l w h lsz rsz s) := by
  rcases hINV with ⟨hl, hp⟩ | ⟨hl, hp⟩
  · by_cases h1 : 0 < (detS1 rsqrt t_r n_r n_l t_l c_r c_l w h lsz rsz s).plu_dt_a_r
    · obtain ⟨_, hset⟩ := detFinal_freeze rsqrt t_r n_r n_l t_l c_r c_l w h lsz rsz s hl h1
      exact Or.inr ⟨hset, by rw [detFinal_plu_dt_a_r]; exact h1⟩
    · have hplu : (detFinal rsqrt t_r n_r n_l t_l c_r c_l w h lsz rsz s).plu_dt_a_r ≤ 0 := by
        rw [detFinal_plu_dt_a_r]; exact not_lt.mp h1
      have hlast := detFinal_last_of_plu_nonpos rsqrt t_r n_r n_l t_l c_r c_l w h lsz rsz s hplu
      exact Or.inl ⟨by rw [lastVec_last_a_r hlast]; exact hl, hplu⟩
  · have h1 := detS1_plu_dt_a_r_pos rsqrt hs t_r n_r n_l t_l c_r c_l w h lsz rsz s hp
    have hlast := detFinal_last_of_pos rsqrt t_r n_r n_l t_l c_r c_l w h lsz rsz s hl
    exact Or.inr ⟨by rw [lastVec_last_a_r hlast]; exact hl,
      by rw [detFinal_plu_dt_a_r]; exact h1⟩

lemma INV_detectorStep (rsqrt : ℚ → ℚ) (hs : ∀ q, 0 ≤ q → 0 ≤ rsqrt q)
    (t_r n_r n_l t_l c_r c_l : Landmark) (w h lsz rsz : ℚ) (s : DetState)
    (hINV : INV s) :
    INV (detectorStep rsqrt t_r n_r n_l t_l c_r c_l w h lsz rsz s).1 := by
  by_cases hraw : 0 < rawPluIrisSize lsz rsz
  · rw [detectorStep_of_pos rsqrt t_r n_r n_l t_l c_r c_l w h lsz rsz s hraw]
    exact INV_detFinal rsqrt hs t_r n_r n_l t_l c_r c_l w h lsz rsz s hINV
  · rw [detectorStep_of_not_pos rsqrt t_r n_r n_l t_l c_r c_l w h lsz rsz s hraw]
    exact hINV

lemma process_state_eq_or_detector (rsqrt : ℚ → ℚ) (inp : FrameInput) (s : DetState) :
    stateOf (Process rsqrt inp s) = s ∨
    ∃ t_r n_r n_l t_l c_r c_l w h lsz rsz,
      stateOf (Process rsqrt inp s) =
        (detectorStep rsqrt t_r n_r n_l t_l c_r c_l w h lsz rsz s).1 := by
  obtain ⟨oi, ofc, osz, old, ord⟩ := inp
  cases oi with
  | none => exact Or.inl rfl
  | some iris =>
    by_cases hlen : iris.length = kNumIrisLandmarksPerEye * 2
    · cases osz with
      | none => simp [Process, hlen, stateOf]
      | some wh =>
        cases ofc with
        | none => simp [Process, hlen, stateOf]
        | some face =>
          cases hfc : getFaceCorners face with
          | none => simp [Process, hlen, hfc, stateOf]
          | some tup =>
            obtain ⟨t_r, n_r, n_l, t_l⟩ := tup
            refine Or.inr ⟨t_r, n_r, n_l, t_l,
              (GetRightIris iris).getD 0 dflt, (GetLeftIris iris).getD 0 dflt,
              (wh.1 : ℚ), (wh.2 : ℚ),
              CalculateIrisDiameter rsqrt (GetLeftIris iris) (wh.1 : ℚ) (wh.2 : ℚ),
              CalculateIrisDiameter rsqrt (GetRightIris iris) (wh.1 : ℚ) (wh.2 : ℚ), ?_⟩
            simp [Process, hlen, hfc, stateOf]
    · simp [Process, hlen, stateOf]

lemma INV_process (rsqrt : ℚ → ℚ) (hs : ∀ q, 0 ≤ q → 0 ≤ rsqrt q)
    (inp : FrameInput) (s : DetState) (hINV : INV s) :
    INV (stateOf (Process rsqrt inp s)) := by
  rcases process_state_eq_or_detector rsqrt inp s with heq |
    ⟨t_r, n_r, n_l, t_l, c_r, c_l, w, h, lsz, rsz, heq⟩
  · rwa [heq]
  · rw [heq]
    exact INV_detectorStep rsqrt hs t_r n_r n_l t_l c_r c_l w h lsz rsz s hINV

lemma INV_run (rsqrt : ℚ → ℚ) (hs : ∀ q, 0 ≤ q → 0 ≤ rsqrt q)
    (fs : List FrameInput) (s : DetState) (hINV : INV s) :
    INV (runFrames rsqrt s fs) := by
  induction fs generalizing s with
  | nil => exact hINV
  | cons f fs ih => exact ih _ (INV_process rsqrt hs f s hINV)

lemma INV_initState : INV initState := by
  exact Or.inl ⟨by norm_num [initState], by norm_num [initState]⟩

lemma process_last_of_pos (rsqrt : ℚ → ℚ) (inp : FrameInput) (s : DetState)
    (hl : 0 < s.last_plu_dt_a_r) :
    lastVec (stateOf (Process rsqrt inp s)) = lastVec s := by
  rcases process_state_eq_or_detector rsqrt inp s with heq |
    ⟨t_r, n_r, n_l, t_l, c_r, c_l, w, h, lsz, rsz, heq⟩
  · rw [heq]
  · rw [heq]
    by_cases hraw : 0 < rawPluIrisSize lsz rsz
    · rw [detectorStep_of_pos rsqrt t_r n_r n_l t_l c_r c_l w h lsz rsz s hraw]
      exact detFinal_last_of_pos rsqrt t_r n_r n_l t_l c_r c_l w h lsz rsz s hl
    · rw [detectorStep_of_not_pos rsqrt t_r n_r n_l t_l c_r c_l w h lsz rsz s hraw]

lemma run_last_of_pos (rsqrt : ℚ → ℚ) (gs : List FrameInput) (s : DetState)
    (hl : 0 < s.last_plu_dt_a_r) :
    lastVec (runFrames rsqrt s gs) = lastVec s := by
  induction gs generalizing s with
  | nil => rfl
  | cons f fs ih =>
    have h1 := process_last_of_pos rsqrt f s hl
    have hl1 : 0 < (stateOf (Process rsqrt f s)).last_plu_dt_a_r := by
      rw [lastVec_last_a_r h1]; exact hl
    show lastVec (runFrames rsqrt (stateOf (Process rsqrt f s)) fs) = lastVec s
    rw [ih _ hl1, h1]

end BasicLemmas

section WitnessData

/-- Concrete square-root stand-in for witness evaluation (any function
nonnegative on nonnegative inputs is admissible for the theorems). -/
def sqrtId : ℚ → ℚ := fun q => q

lemma sqrtId_nonneg : ∀ q, 0 ≤ q → 0 ≤ sqrtId q := fun _ h => h

/-- The zero landmark. -/
def lmZ : Landmark := ⟨0, 0⟩

/-- A landmark at normalized x = 1. -/
def lmT : Landmark := ⟨1, 0⟩

/-- A 10-point iris list whose left eye has a positive diameter. -/
def irisW : List Landmark :=
  [lmZ, lmT, lmZ, lmZ, lmZ, lmZ, lmZ, lmZ, lmZ, lmZ]

/-- A 363-point face list with distinct right-eye corners: index 263 is
`lmT`, every other index (in particular 362, 133, 33) is `lmZ`. -/
def faceW : List Landmark :=
  List.replicate 263 lmZ ++ [lmT] ++ List.replicate 98 lmZ ++ [lmZ]

/-- A valid frame that makes the baseline freeze fire immediately. -/
def frameW : FrameInput :=
  ⟨some irisW, some faceW, some (1, 1), none, none⟩

/-- A frozen-baseline state satisfying `INV`: every filter and baseline
slot holds 1, counters are 0. -/
def stateOne : DetState :=
  ⟨1, 1, 1, 1, 1, 1, 1, 1, 1, 1, 1, 1, 1, 1, 1, 1, 1, 1,
   0, 0, 0, 0, 0, 0, 0, 0, 0,
   1, 1, 1, 1, 1, 1, 1, 1, 1, 1, 1, 1, 1, 1, 1, 1, 1, 1, 1⟩

/-- Fresh state whose `plu_dt_a_r_x` channel is already initialized at 5. -/
def stateC4 : DetState := { initState with plu_dt_a_r_x := 5 }

lemma faceW_corners : getFaceCorners faceW = some (lmT, lmZ, lmZ, lmZ) := by decide

end WitnessData

section DeltaLemmas

lemma filtVec_ext {s t : DetState} (h : filtVec s = filtVec t) :
    s.plu_dt_a_r_x = t.plu_dt_a_r_x ∧ s.plu_dt_a_r_y = t.plu_dt_a_r_y ∧
    s.plu_dt_a_r = t.plu_dt_a_r ∧
    s.plu_dt_a_l_x = t.plu_dt_a_l_x ∧ s.plu_dt_a_l_y = t.plu_dt_a_l_y ∧
    s.plu_dt_a_l = t.plu_dt_a_l ∧
    s.plu_dt_t_r_x = t.plu_dt_t_r_x ∧ s.plu_dt_t_r_y = t.plu_dt_t_r_y ∧
    s.plu_dt_t_r = t.plu_dt_t_r ∧
    s.plu_dt_t_l_x = t.plu_dt_t_l_x ∧ s.plu_dt_t_l_y = t.plu_dt_t_l_y ∧
    s.plu_dt_t_l = t.plu_dt_t_l ∧
    s.plu_dt_n_r_x = t.plu_dt_n_r_x ∧ s.plu_dt_n_r_y = t.plu_dt_n_r_y ∧
    s.plu_dt_n_r = t.plu_dt_n_r ∧
    s.plu_dt_n_l_x = t.plu_dt_n_l_x ∧ s.plu_dt_n_l_y = t.plu_dt_n_l_y ∧
    s.plu_dt_n_l = t.plu_dt_n_l := by
  simp only [filtVec, List.cons.injEq, and_true, eq_self_iff_true] at h
  exact h

lemma detFinal_filt (rsqrt : ℚ → ℚ) (t_r n_r n_l t_l c_r c_l : Landmark)
    (w h lsz rsz : ℚ) (s : DetState) :
    filtVec (detFinal rsqrt t_r n_r n_l t_l c_r c_l w h lsz rsz s) =
      filtVec (detS1 rsqrt t_r n_r n_l t_l c_r c_l w h lsz rsz s) := by
  unfold detFinal
  rw [filtVec_freezeBaseline, filtVec_bumpCounters]

lemma detD_of_baseline (rsqrt : ℚ → ℚ) (hs : ∀ q, 0 ≤ q → 0 ≤ rsqrt q)
    (t_r n_r n_l t_l c_r c_l : Landmark) (w h lsz rsz : ℚ) (s : DetState)
    (hl : 0 < s.last_plu_dt_a_r) (hp : 0 < s.plu_dt_a_r) :
    detD rsqrt t_r n_r n_l t_l c_r c_l w h lsz rsz s =
      computeDeltas (detS1 rsqrt t_r n_r n_l t_l c_r c_l w h lsz rsz s) := by
  show (if 0 < (detS1 rsqrt t_r n_r n_l t_l c_r c_l w h lsz rsz s).last_plu_dt_a_r ∧
      0 < (detS1 rsqrt t_r n_r n_l t_l c_r c_l w h lsz rsz s).plu_dt_a_r
    then computeDeltas (detS1 rsqrt t_r n_r n_l t_l c_r c_l w h lsz rsz s)
    else sentinelDeltas) = _
  rw [if_pos]
  constructor
  · rw [detS1_last_a_r]; exact hl
  · exact detS1_plu_dt_a_r_pos rsqrt hs t_r n_r n_l t_l c_r c_l w h lsz rsz s hp

lemma detD_of_no_baseline (rsqrt : ℚ → ℚ) (t_r n_r n_l t_l c_r c_l : Landmark)
    (w h lsz rsz : ℚ) (s : DetState) (hl : s.last_plu_dt_a_r < 0) :
    detD rsqrt t_r n_r n_l t_l c_r c_l w h lsz rsz s = sentinelDeltas := by
  show (if 0 < (detS1 rsqrt t_r n_r n_l t_l c_r c_l w h lsz rsz s).last_plu_dt_a_r ∧
      0 < (detS1 rsqrt t_r n_r n_l t_l c_r c_l w h lsz rsz s).plu_dt_a_r
    then computeDeltas (detS1 rsqrt t_r n_r n_l t_l c_r c_l w h lsz rsz s)
    else sentinelDeltas) = _
  rw [if_neg]
  rintro ⟨h1, -⟩
  rw [detS1_last_a_r] at h1
  exact absurd h1 (not_lt.mpr hl.le)

lemma copy_field_n_r_x {s t : DetState} (h : lastVec s = filtVec t) :
    s.last_plu_dt_n_r_x = t.plu_dt_n_r_x := by
  simpa [lastVec, filtVec] using congrArg (fun l => l.getD 12 0) h

lemma copy_field_t_r_x {s t : DetState} (h : lastVec s = filtVec t) :
    s.last_plu_dt_t_r_x = t.plu_dt_t_r_x := by
  simpa [lastVec, filtVec] using congrArg (fun l => l.getD 6 0) h

end DeltaLemmas

/-- Claim C2 counterexample: on the very frame that freezes the
baseline, the baseline exists by the end of the frame (the gate slot is
positive), yet the emitted deltas are the `-100` sentinel and differ
from the claimed formula value (which is 0 there, since the baseline was
copied from the current values). The spec's step order (freeze before
deltas) disagrees with the code (deltas before freeze) on this frame. -/
theorem deltas_freeze_frame_cex :
    0 < (detectorStep sqrtId lmT lmZ lmZ lmZ lmZ lmZ 1 1 2 0 initState).1.last_plu_dt_a_r ∧
    (detectorStep sqrtId lmT lmZ lmZ lmZ lmZ lmZ 1 1 2 0 initState).2.1 =
      some sentinelDeltas ∧
    sentinelDeltas.delta_plu_r_x ≠
      (((detectorStep sqrtId lmT lmZ lmZ lmZ lmZ lmZ 1 1 2 0 initState).1.plu_dt_n_r_x -
          (detectorStep sqrtId lmT lmZ lmZ lmZ lmZ lmZ 1 1 2 0 initState).1.last_plu_dt_n_r_x) -
        ((detectorStep sqrtId lmT lmZ lmZ lmZ lmZ lmZ 1 1 2 0 initState).1.plu_dt_t_r_x -
          (detectorStep sqrtId lmT lmZ lmZ lmZ lmZ lmZ 1 1 2 0 initState).1.last_plu_dt_t_r_x)) *
        kDeltaAdjustInMM / 2 := by
  have hraw : 0 < rawPluIrisSize (2 : ℚ) 0 := by norm_num [rawPluIrisSize]
  have hl : initState.last_plu_dt_a_r < 0 := by norm_num [initState]
  have hp : 0 < (detS1 sqrtId lmT lmZ lmZ lmZ lmZ lmZ 1 1 2 0 initState).plu_dt_a_r := by
    rw [detS1_plu_dt_a_r]
    norm_num [emaUpd, rawDtE, rawDtX, rawDtY, sqrtId, mmScale, rawPluIrisSize,
      initState, lmT, lmZ, kIrisSizeInMM, kDepthWeightUpdate]
  have hfr := detFinal_freeze sqrtId lmT lmZ lmZ lmZ lmZ lmZ 1 1 2 0 initState hl hp
  have hd := detD_of_no_baseline sqrtId lmT lmZ lmZ lmZ lmZ lmZ 1 1 2 0 initState hl
  rw [detectorStep_of_pos sqrtId lmT lmZ lmZ lmZ lmZ lmZ 1 1 2 0 initState hraw]
  refine ⟨hfr.2, by rw [hd], ?_⟩
  rw [copy_field_n_r_x hfr.1, copy_field_t_r_x hfr.1]
  norm_num [sentinelDeltas]

/-- Claim C2 (amended): on a frame where the detector block runs, if the
baseline existed at the start of the frame (it was frozen on an earlier
frame), each per-side delta equals
`((current inner-to-center minus its baseline) - (current
outer-to-center minus its baseline)) * 4 / 2` and each aggregate delta
is the left delta minus the right delta; if the baseline did not exist
at the start of the frame (including the freeze frame itself), all nine
deltas are the `-100` sentinel, never a stale value. -/
theorem deltas_formula (rsqrt : ℚ → ℚ) (hs : ∀ q, 0 ≤ q → 0 ≤ rsqrt q)
    (t_r n_r n_l t_l c_r c_l : Landmark) (w h lsz rsz : ℚ) (s s3 : DetState)
    (d : Deltas) (hINV : INV s) (hraw : 0 < rawPluIrisSize lsz rsz)
    (h1 : (detectorStep rsqrt t_r n_r n_l t_l c_r c_l w h lsz rsz s).1 = s3)
    (h2 : (detectorStep rsqrt t_r n_r n_l t_l c_r c_l w h lsz rsz s).2.1 = some d) :
    (0 < s.last_plu_dt_a_r →
      d.delta_plu_r_x = ((s3.plu_dt_n_r_x - s.last_plu_dt_n_r_x) -
        (s3.plu_dt_t_r_x - s.last_plu_dt_t_r_x)) * kDeltaAdjustInMM / 2 ∧
      d.delta_plu_l_x = ((s3.plu_dt_n_l_x - s.last_plu_dt_n_l_x) -
        (s3.plu_dt_t_l_x - s.last_plu_dt_t_l_x)) * kDeltaAdjustInMM / 2 ∧
      d.delta_plu_r_y = ((s3.plu_dt_n_r_y - s.last_plu_dt_n_r_y) -
        (s3.plu_dt_t_r_y - s.last_plu_dt_t_r_y)) * kDeltaAdjustInMM / 2 ∧
      d.delta_plu_l_y = ((s3.plu_dt_n_l_y - s.last_plu_dt_n_l_y) -
        (s3.plu_dt_t_l_y - s.last_plu_dt_t_l_y)) * kDeltaAdjustInMM / 2 ∧
      d.delta_plu_r = ((s3.plu_dt_n_r - s.last_plu_dt_n_r) -
        (s3.plu_dt_t_r - s.last_plu_dt_t_r)) * kDeltaAdjustInMM / 2 ∧
      d.delta_plu_l = ((s3.plu_dt_n_l - s.last_plu_dt_n_l) -
        (s3.plu_dt_t_l - s.last_plu_dt_t_l)) * kDeltaAdjustInMM / 2 ∧
      d.delta_plu_x = d.delta_plu_l_x - d.delta_plu_r_x ∧
      d.delta_plu_y = d.delta_plu_l_y - d.delta_plu_r_y ∧
      d.delta_plu = d.delta_plu_l - d.delta_plu_r) ∧
    (s.last_plu_dt_a_r < 0 → d = sentinelDeltas) := by
  rw [detectorStep_of_pos rsqrt t_r n_r n_l t_l c_r c_l w h lsz rsz s hraw] at h1 h2
  dsimp only at h1 h2
  have hd := Option.some.inj h2
  subst hd
  subst h1
  constructor
  · intro hl
    have hp : 0 < s.plu_dt_a_r := by
      rcases hINV with ⟨hneg, -⟩ | ⟨-, hp⟩
      · exact absurd hl (not_lt.mpr hneg.le)
      · exact hp
    rw [detD_of_baseline rsqrt hs t_r n_r n_l t_l c_r c_l w h lsz rsz s hl hp]
    obtain ⟨f1, f2, f3, f4, f5, f6, f7, f8, f9, f10, f11, f12, f13, f14, f15, f16, f17, f18⟩ :=
      filtVec_ext (detFinal_filt rsqrt t_r n_r n_l t_l c_r c_l w h lsz rsz s)
    refine ⟨?_, ?_, ?_, ?_, ?_, ?_, rfl, rfl, rfl⟩
    · rw [f13, f7]; rfl
    · rw [f16, f10]; rfl
    · rw [f14, f8]; rfl
    · rw [f17, f11]; rfl
    · rw [f15, f9]; rfl
    · rw [f18, f12]; rfl
  · intro hl
    exact detD_of_no_baseline rsqrt t_r n_r n_l t_l c_r c_l w h lsz rsz s hl

/-- Witness for the amended C2: at a concrete frozen-baseline state the
right-eye x delta satisfies the formula. -/
theorem deltas_formula_witness :
    (detD sqrtId lmT lmZ lmZ lmZ lmZ lmZ 1 1 2 0 stateOne).delta_plu_r_x =
      (((detectorStep sqrtId lmT lmZ lmZ lmZ lmZ lmZ 1 1 2 0 stateOne).1.plu_dt_n_r_x -
          stateOne.last_plu_dt_n_r_x) -
        ((detectorStep sqrtId lmT lmZ lmZ lmZ lmZ lmZ 1 1 2 0 stateOne).1.plu_dt_t_r_x -
          stateOne.last_plu_dt_t_r_x)) * kDeltaAdjustInMM / 2 :=
  ((deltas_formula sqrtId sqrtId_nonneg lmT lmZ lmZ lmZ lmZ lmZ 1 1 2 0 stateOne
      ((detectorStep sqrtId lmT lmZ lmZ lmZ lmZ lmZ 1 1 2 0 stateOne).1)
      (detD sqrtId lmT lmZ lmZ lmZ lmZ lmZ 1 1 2 0 stateOne)
      (by decide) (by norm_num [rawPluIrisSize]) rfl
      (by rw [detectorStep_of_pos sqrtId lmT lmZ lmZ lmZ lmZ lmZ 1 1 2 0 stateOne
        (by norm_num [rawPluIrisSize])])).1
    (by decide)).1

section CounterLemmas

lemma warn_step_detector (rsqrt : ℚ → ℚ) (t_r n_r n_l t_l c_r c_l : Landmark)
    (w h lsz rsz : ℚ) (s : DetState) :
    warnVec (detectorStep rsqrt t_r n_r n_l t_l c_r c_l w h lsz rsz s).1 =
      List.zipWith (· + ·) (warnVec s)
        (bumpVec (detectorStep rsqrt t_r n_r n_l t_l c_r c_l w h lsz rsz s).2.1) := by
  by_cases hraw : 0 < rawPluIrisSize lsz rsz
  · rw [detectorStep_of_pos rsqrt t_r n_r n_l t_l c_r c_l w h lsz rsz s hraw]
    dsimp only
    unfold detFinal
    rw [warnVec_freezeBaseline]
    rfl
  · rw [detectorStep_of_not_pos rsqrt t_r n_r n_l t_l c_r c_l w h lsz rsz s hraw]
    rfl

lemma warn_step_process (rsqrt : ℚ → ℚ) (inp : FrameInput) (s : DetState) :
    List.Forall₂ (fun a b => b = a ∨ b = a + 1) (warnVec s)
      (warnVec (stateOf (Process rsqrt inp s))) := by
  rcases process_state_eq_or_detector rsqrt inp s with heq |
    ⟨t_r, n_r, n_l, t_l, c_r, c_l, w, h, lsz, rsz, heq⟩
  · rw [heq]
    exact List.forall₂_same.mpr fun x _ => Or.inl rfl
  · rw [heq, warn_step_detector rsqrt t_r n_r n_l t_l c_r c_l w h lsz rsz s]
    cases hdo : (detectorStep rsqrt t_r n_r n_l t_l c_r c_l w h lsz rsz s).2.1 with
    | none => simp [bumpVec, warnVec, List.forall₂_cons]
    | some dd =>
      simp only [bumpVec, warnVec, List.zipWith_cons_cons, List.zipWith_nil_right,
        List.forall₂_cons, List.Forall₂.nil, and_true]
      refine ⟨?_, ?_, ?_, ?_, ?_, ?_, ?_, ?_, ?_⟩ <;> (split <;> omega)

lemma forall₂_nat_le_trans {l1 l2 l3 : List ℕ}
    (h1 : List.Forall₂ (· ≤ ·) l1 l2) (h2 : List.Forall₂ (· ≤ ·) l2 l3) :
    List.Forall₂ (· ≤ ·) l1 l3 := by
  induction h1 generalizing l3 with
  | nil => cases h2; exact List.Forall₂.nil
  | cons hab h ih =>
    cases h2 with
    | cons hbc h2 => exact List.Forall₂.cons (le_trans hab hbc) (ih h2)

lemma warn_run_mono (rsqrt : ℚ → ℚ) (fs : List FrameInput) (s : DetState) :
    List.Forall₂ (· ≤ ·) (warnVec s) (warnVec (runFrames rsqrt s fs)) := by
  induction fs generalizing s with
  | nil => exact List.forall₂_same.mpr fun x _ => le_refl x
  | cons f fs ih =>
    have hstep : List.Forall₂ (· ≤ ·) (warnVec s)
        (warnVec (stateOf (Process rsqrt f s))) :=
      (warn_step_process rsqrt f s).imp fun a b hab => by
        rcases hab with rfl | rfl
        · exact le_refl _
        · exact Nat.le_succ _
    exact forall₂_nat_le_trans hstep (ih (stateOf (Process rsqrt f s)))

end CounterLemmas

/-- Claim C3: each of the 9 warning counters (i) gains, on a detector
frame, exactly the indicator of its delta strictly exceeding the 6 mm
threshold (1 or 0, never magnitude-scaled; 0 when the block did not
run), (ii) per frame either stays or grows by exactly 1, and (iii) is
monotonically non-decreasing over any frame sequence — no operation
resets it. -/
theorem counters_monotone_exact (rsqrt : ℚ → ℚ) :
    (∀ t_r n_r n_l t_l c_r c_l w h lsz rsz s,
      warnVec (detectorStep rsqrt t_r n_r n_l t_l c_r c_l w h lsz rsz s).1 =
        List.zipWith (· + ·) (warnVec s)
          (bumpVec (detectorStep rsqrt t_r n_r n_l t_l c_r c_l w h lsz rsz s).2.1)) ∧
    (∀ inp s, List.Forall₂ (fun a b => b = a ∨ b = a + 1) (warnVec s)
      (warnVec (stateOf (Process rsqrt inp s)))) ∧
    (∀ fs s, List.Forall₂ (· ≤ ·) (warnVec s) (warnVec (runFrames rsqrt s fs))) :=
  ⟨fun t_r n_r n_l t_l c_r c_l w h lsz rsz s =>
      warn_step_detector rsqrt t_r n_r n_l t_l c_r c_l w h lsz rsz s,
   fun inp s => warn_step_process rsqrt inp s,
   fun fs s => warn_run_mono rsqrt fs s⟩

lemma detFinal_plu_iris_size (rsqrt : ℚ → ℚ) (t_r n_r n_l t_l c_r c_l : Landmark)
    (w h lsz rsz : ℚ) (s : DetState) :
    (detFinal rsqrt t_r n_r n_l t_l c_r c_l w h lsz rsz s).plu_iris_size =
      emaUpd s.plu_iris_size (rawPluIrisSize lsz rsz) := by
  unfold detFinal
  rw [plu_iris_size_freezeBaseline]
  rfl

/-- Claim C4 counterexample: a distance channel with an initialized
stored value 5 receives a raw value of 0 (its corner landmarks
coincide) while the detector block runs, and its stored value changes
to 4.5 — the claimed r ≤ 0 no-update rule does not hold for the 18
distance channels. -/
theorem filter_zero_raw_cex :
    rawDtX sqrtId lmZ lmZ
      (1 * mmScale (emaUpd stateC4.plu_iris_size (rawPluIrisSize 2 0))) = 0 ∧
    (detectorStep sqrtId lmZ lmZ lmZ lmZ lmZ lmZ 1 1 2 0 stateC4).1.plu_dt_a_r_x = 9 / 2 ∧
    (9 / 2 : ℚ) ≠ stateC4.plu_dt_a_r_x := by
  have hraw : 0 < rawPluIrisSize (2 : ℚ) 0 := by norm_num [rawPluIrisSize]
  refine ⟨by norm_num [rawDtX, sqrtId, lmZ], ?_, by norm_num [stateC4]⟩
  rw [detectorStep_of_pos sqrtId lmZ lmZ lmZ lmZ lmZ lmZ 1 1 2 0 stateC4 hraw]
  dsimp only
  obtain ⟨f1, -⟩ :=
    filtVec_ext (detFinal_filt sqrtId lmZ lmZ lmZ lmZ lmZ lmZ 1 1 2 0 stateC4)
  rw [f1]
  show emaUpd stateC4.plu_dt_a_r_x
    (rawDtX sqrtId lmZ lmZ
      (1 * mmScale (emaUpd stateC4.plu_iris_size (rawPluIrisSize 2 0)))) = 9 / 2
  norm_num [emaUpd, rawDtX, sqrtId, lmZ, mmScale, rawPluIrisSize, stateC4, initState,
    kDepthWeightUpdate, kIrisSizeInMM]

/-- Claim C4 (amended): the r ≤ 0 no-update rule holds for the
aggregate iris-size channel (whose guard skips the whole detector
block), and every channel cold-starts to exactly the raw value when its
stored value is the sentinel (negative; non-finite values do not exist
over ℚ) and otherwise moves to `stored * 0.9 + raw * 0.1`; but the 18
distance channels apply this update unconditionally in the raw value —
a raw distance of 0 still updates them (see the counterexample). -/
theorem filter_update_semantics (rsqrt : ℚ → ℚ) :
    (∀ t_r n_r n_l t_l c_r c_l w h lsz rsz s, rawPluIrisSize lsz rsz ≤ 0 →
      (detectorStep rsqrt t_r n_r n_l t_l c_r c_l w h lsz rsz s).1 = s) ∧
    (∀ cur raw : ℚ, cur < 0 → emaUpd cur raw = raw) ∧
    (∀ cur raw : ℚ, ¬ cur < 0 →
      emaUpd cur raw = cur * (1 - kDepthWeightUpdate) + raw * kDepthWeightUpdate) ∧
    (∀ t_r n_r n_l t_l c_r c_l w h lsz rsz s,
      (detS1 rsqrt t_r n_r n_l t_l c_r c_l w h lsz rsz s).plu_dt_a_r_x =
        emaUpd s.plu_dt_a_r_x (rawDtX rsqrt t_r n_r
          (w * mmScale (emaUpd s.plu_iris_size (rawPluIrisSize lsz rsz))))) ∧
    (∀ t_r n_r n_l t_l c_r c_l w h lsz rsz s, 0 < rawPluIrisSize lsz rsz →
      (detectorStep rsqrt t_r n_r n_l t_l c_r c_l w h lsz rsz s).1.plu_iris_size =
        emaUpd s.plu_iris_size (rawPluIrisSize lsz rsz)) := by
  refine ⟨?_, ?_, ?_, ?_, ?_⟩
  · intro t_r n_r n_l t_l c_r c_l w h lsz rsz s hraw
    rw [detectorStep_of_not_pos rsqrt t_r n_r n_l t_l c_r c_l w h lsz rsz s
      (not_lt.mpr hraw)]
  · intro cur raw hc
    exact emaUpd_of_neg raw hc
  · intro cur raw hc
    exact emaUpd_of_not_neg raw hc
  · intro t_r n_r n_l t_l c_r c_l w h lsz rsz s
    rfl
  · intro t_r n_r n_l t_l c_r c_l w h lsz rsz s hraw
    rw [detectorStep_of_pos rsqrt t_r n_r n_l t_l c_r c_l w h lsz rsz s hraw]
    dsimp only
    exact detFinal_plu_iris_size rsqrt t_r n_r n_l t_l c_r c_l w h lsz rsz s

/-- Witness for the amended C4: the block-skip guard, both update
branches and the aggregate update, each at a concrete input. -/
theorem filter_update_semantics_witness :
    (detectorStep sqrtId lmZ lmZ lmZ lmZ lmZ lmZ 1 1 0 0 initState).1 = initState ∧
    emaUpd (-1) 7 = 7 ∧
    emaUpd 2 3 = 2 * (1 - kDepthWeightUpdate) + 3 * kDepthWeightUpdate ∧
    (detectorStep sqrtId lmZ lmZ lmZ lmZ lmZ lmZ 1 1 2 0 initState).1.plu_iris_size =
      emaUpd initState.plu_iris_size (rawPluIrisSize 2 0) :=
  ⟨(filter_update_semantics sqrtId).1 lmZ lmZ lmZ lmZ lmZ lmZ 1 1 0 0 initState
      (by norm_num [rawPluIrisSize]),
   (filter_update_semantics sqrtId).2.1 (-1) 7 (by norm_num),
   (filter_update_semantics sqrtId).2.2.1 2 3 (by norm_num),
   (filter_update_semantics sqrtId).2.2.2.2 lmZ lmZ lmZ lmZ lmZ lmZ 1 1 2 0 initState
      (by norm_num [rawPluIrisSize])⟩

section GraceLemmas

lemma isDetText_RenderIris (lms : List Landmark) (w h sz : ℚ) :
    ∀ a ∈ RenderIris lms w h sz, isDetText a = false := by
  intro a ha
  unfold RenderIris at ha
  rcases List.mem_cons.mp ha with rfl | ha
  · rfl
  · obtain ⟨l, -, rfl⟩ := List.mem_map.mp ha
    rfl

lemma isDetText_depthLines (inp : FrameInput) :
    ∀ l ∈ depthLines inp, isDetText (RenderItem.text l) = false := by
  intro l hl
  unfold depthLines at hl
  rcases List.mem_append.mp hl with hmem | hmem
  · cases hld : inp.leftDepth with
    | none => rw [hld] at hmem; exact absurd hmem (List.not_mem_nil l)
    | some v =>
      rw [hld] at hmem
      rcases List.mem_cons.mp hmem with rfl | hmem
      · rfl
      · exact absurd hmem (List.not_mem_nil l)
  · cases hrd : inp.rightDepth with
    | none => rw [hrd] at hmem; exact absurd hmem (List.not_mem_nil l)
    | some v =>
      rw [hrd] at hmem
      rcases List.mem_cons.mp hmem with rfl | hmem
      · rfl
      · exact absurd hmem (List.not_mem_nil l)

end GraceLemmas

/-- Claim C5: a frame whose iris landmark list does not have exactly 10
points, or whose image size input is absent, fails with the matching
structural error, emits no render items, and leaves the persistent
state exactly as it was (the same state is carried to later frames). -/
theorem structural_error_no_mutation (rsqrt : ℚ → ℚ) (inp : FrameInput) (s : DetState) :
    (∀ iris, inp.iris = some iris → iris.length ≠ kNumIrisLandmarksPerEye * 2 →
      Process rsqrt inp s = PResult.err PErr.wrongIrisCount s ∧
      outputOf (Process rsqrt inp s) = none ∧ stateOf (Process rsqrt inp s) = s) ∧
    (∀ iris, inp.iris = some iris → iris.length = kNumIrisLandmarksPerEye * 2 →
      inp.imageSize = none →
      Process rsqrt inp s = PResult.err PErr.missingImageSize s ∧
      outputOf (Process rsqrt inp s) = none ∧ stateOf (Process rsqrt inp s) = s) := by
  obtain ⟨oi, ofc, osz, old, ord⟩ := inp
  constructor
  · rintro iris rfl hlen
    refine ⟨?_, ?_, ?_⟩ <;> simp [Process, hlen, outputOf, stateOf]
  · rintro iris rfl hlen rfl
    refine ⟨?_, ?_, ?_⟩ <;> simp [Process, hlen, outputOf, stateOf]

/-- A frame with 9 iris landmarks (wrong count). -/
def frameBadIris : FrameInput :=
  ⟨some (List.replicate 9 lmZ), none, some (1, 1), none, none⟩

/-- A frame with 10 iris landmarks but no image size. -/
def frameNoSize : FrameInput :=
  ⟨some (List.replicate 10 lmZ), none, none, none, none⟩

/-- Witness for C5: both structural errors at concrete frames, with the
state handed back unchanged. -/
theorem structural_error_no_mutation_witness :
    Process sqrtId frameBadIris initState = PResult.err PErr.wrongIrisCount initState ∧
    Process sqrtId frameNoSize initState = PResult.err PErr.missingImageSize initState :=
  ⟨((structural_error_no_mutation sqrtId frameBadIris initState).1 _ rfl (by decide)).1,
   ((structural_error_no_mutation sqrtId frameNoSize initState).2 _ rfl (by decide) rfl).1⟩

/-- Claim C6: when face landmarks are absent but iris landmarks and
image size are present, the frame succeeds, the output still carries
the two per-eye iris item groups (oval plus landmark points) and the
optional depth lines, no deviation-detector diagnostic line is
produced, and the persistent state is untouched. -/
theorem face_absent_graceful (rsqrt : ℚ → ℚ) (inp : FrameInput) (s : DetState)
    (iris : List Landmark) (wh : ℤ × ℤ)
    (hi : inp.iris = some iris) (hlen : iris.length = kNumIrisLandmarksPerEye * 2)
    (hsz : inp.imageSize = some wh) (hface : inp.face = none) :
    Process rsqrt inp s = PResult.ok (some (
      RenderIris (GetLeftIris iris) (wh.1 : ℚ) (wh.2 : ℚ)
        (CalculateIrisDiameter rsqrt (GetLeftIris iris) (wh.1 : ℚ) (wh.2 : ℚ)) ++
      RenderIris (GetRightIris iris) (wh.1 : ℚ) (wh.2 : ℚ)
        (CalculateIrisDiameter rsqrt (GetRightIris iris) (wh.1 : ℚ) (wh.2 : ℚ)) ++
      (depthLines inp).map RenderItem.text)) s ∧
    stateOf (Process rsqrt inp s) = s ∧
    (∀ a, a ∈ (outputOf (Process rsqrt inp s)).getD [] → isDetText a = false) := by
  obtain ⟨oi, ofc, osz, old, ord⟩ := inp
  cases hi
  cases hsz
  cases hface
  have hmain : Process rsqrt ⟨some iris, none, some wh, old, ord⟩ s = PResult.ok (some (
      RenderIris (GetLeftIris iris) (wh.1 : ℚ) (wh.2 : ℚ)
        (CalculateIrisDiameter rsqrt (GetLeftIris iris) (wh.1 : ℚ) (wh.2 : ℚ)) ++
      RenderIris (GetRightIris iris) (wh.1 : ℚ) (wh.2 : ℚ)
        (CalculateIrisDiameter rsqrt (GetRightIris iris) (wh.1 : ℚ) (wh.2 : ℚ)) ++
      (depthLines ⟨some iris, none, some wh, old, ord⟩).map RenderItem.text)) s := by
    simp [Process, hlen]
  refine ⟨hmain, by rw [hmain]; rfl, ?_⟩
  intro a ha
  rw [hmain] at ha
  simp only [outputOf, Option.getD_some] at ha
  rcases List.mem_append.mp ha with ha | ha
  · rcases List.mem_append.mp ha with ha | ha
    · exact isDetText_RenderIris _ _ _ _ a ha
    · exact isDetText_RenderIris _ _ _ _ a ha
  · obtain ⟨l, hl, rfl⟩ := List.mem_map.mp ha
    exact isDetText_depthLines _ l hl

/-- A valid frame without face landmarks but with a left depth value. -/
def frameNoFace : FrameInput :=
  ⟨some (List.replicate 10 lmZ), none, some (1, 1), some 100, none⟩

/-- Witness for C6: the concrete face-less frame leaves the state
untouched and emits no detector line. -/
theorem face_absent_graceful_witness :
    stateOf (Process sqrtId frameNoFace initState) = initState ∧
    (∀ a, a ∈ (outputOf (Process sqrtId frameNoFace initState)).getD [] →
      isDetText a = false) :=
  ⟨(face_absent_graceful sqrtId frameNoFace initState _ _ rfl (by decide) rfl rfl).2.1,
   (face_absent_graceful sqrtId frameNoFace initState _ _ rfl (by decide) rfl rfl).2.2⟩

lemma getD_eq_get {α : Type} (l : List α) (d : α) (n : ℕ) (hn : n < l.length) :
    l.getD n d = l.get ⟨n, hn⟩ := by
  rw [List.getD_eq_getElem?_getD, List.getElem?_eq_getElem hn]
  rfl

/-- Claim C7: partitioning a 10-point iris list yields two 5-point
lists in order `[center, top, bottom, left, right]`, drawn from source
indices 0, 2, 4, 3, 1 (first eye) and 5, 7, 9, 6, 8 (second eye); the
head of each partitioned eye is the input landmark at that eye's center
index. The embedded partition functions are pure, so the input list is
unchanged. -/
theorem partition_fixed_indices (lds : List Landmark)
    (h : lds.length = kNumIrisLandmarksPerEye * 2) :
    GetLeftIris lds =
      [lds.get ⟨0, by rw [h]; norm_num [kNumIrisLandmarksPerEye]⟩,
       lds.get ⟨2, by rw [h]; norm_num [kNumIrisLandmarksPerEye]⟩,
       lds.get ⟨4, by rw [h]; norm_num [kNumIrisLandmarksPerEye]⟩,
       lds.get ⟨3, by rw [h]; norm_num [kNumIrisLandmarksPerEye]⟩,
       lds.get ⟨1, by rw [h]; norm_num [kNumIrisLandmarksPerEye]⟩] ∧
    GetRightIris lds =
      [lds.get ⟨5, by rw [h]; norm_num [kNumIrisLandmarksPerEye]⟩,
       lds.get ⟨7, by rw [h]; norm_num [kNumIrisLandmarksPerEye]⟩,
       lds.get ⟨9, by rw [h]; norm_num [kNumIrisLandmarksPerEye]⟩,
       lds.get ⟨6, by rw [h]; norm_num [kNumIrisLandmarksPerEye]⟩,
       lds.get ⟨8, by rw [h]; norm_num [kNumIrisLandmarksPerEye]⟩] ∧
    (GetLeftIris lds).length = kNumIrisLandmarksPerEye ∧
    (GetRightIris lds).length = kNumIrisLandmarksPerEye ∧
    (GetLeftIris lds).getD 0 dflt = lds.getD 0 dflt ∧
    (GetRightIris lds).getD 0 dflt = lds.getD 5 dflt := by
  have h10 : lds.length = 10 := by simpa [kNumIrisLandmarksPerEye] using h
  refine ⟨?_, ?_, rfl, rfl, rfl, rfl⟩
  · simp only [GetLeftIris]
    rw [getD_eq_get lds dflt 0 (by omega), getD_eq_get lds dflt 2 (by omega),
      getD_eq_get lds dflt 4 (by omega), getD_eq_get lds dflt 3 (by omega),
      getD_eq_get lds dflt 1 (by omega)]
  · simp only [GetRightIris]
    rw [getD_eq_get lds dflt 5 (by omega), getD_eq_get lds dflt 7 (by omega),
      getD_eq_get lds dflt 9 (by omega), getD_eq_get lds dflt 6 (by omega),
      getD_eq_get lds dflt 8 (by omega)]

/-- Witness for C7: the center elements of both partitioned eyes on a
concrete 10-point list. -/
theorem partition_fixed_indices_witness :
    (GetLeftIris irisW).getD 0 dflt = irisW.getD 0 dflt ∧
    (GetRightIris irisW).getD 0 dflt = irisW.getD 5 dflt :=
  ⟨(partition_fixed_indices irisW (by decide)).2.2.2.2.1,
   (partition_fixed_indices irisW (by decide)).2.2.2.2.2⟩

/-- Modelled from the spec (section 4.2): `chord` converts normalized
coordinates to pixel space using the image size before taking the
Euclidean distance. -/
def chordSpec (rsqrt : ℚ → ℚ) (p q : Landmark) (w h : ℚ) : ℚ :=
  rsqrt ((p.x * w - q.x * w) * (p.x * w - q.x * w) +
    (p.y * h - q.y * h) * (p.y * h - q.y * h))

/-- Modelled from the spec: `diameter(eye) = (chord(top, bottom) +
chord(left, right)) / 2` on the `[center, top, bottom, left, right]`
partitioned eye (top and bottom at positions 1 and 2, left and right at
positions 3 and 4). -/
def diameterSpec (rsqrt : ℚ → ℚ) (eye : List Landmark) (w h : ℚ) : ℚ :=
  (chordSpec rsqrt (eye.getD 1 dflt) (eye.getD 2 dflt) w h +
   chordSpec rsqrt (eye.getD 3 dflt) (eye.getD 4 dflt) w h) / 2

/-- Modelled from the spec: `depth_mm = REFERENCE_IRIS_MM *
sqrt(focal_px^2 + dist(image_center, center_px)^2) / iris_size_px` with
`REFERENCE_IRIS_MM = 11.8`. -/
def depthSpec (rsqrt : ℚ → ℚ) (center : Landmark) (focal iris_size w h : ℚ) : ℚ :=
  let dist := rsqrt ((w / 2 - center.x * w) * (w / 2 - center.x * w) +
    (h / 2 - center.y * h) * (h / 2 - center.y * h))
  (11.8 : ℚ) * rsqrt (focal * focal + dist * dist) / iris_size

/-- Claim C8: the computed iris diameter is the average of the
top-to-bottom and left-to-right pixel-space chords of the partitioned
eye, and the computed depth is `11.8 * sqrt(focal^2 + dist(image
center, iris center in pixels)^2) / iris_size` — the source functions
agree with the spec formulas for every input. -/
theorem geometry_formulas (rsqrt : ℚ → ℚ) :
    (∀ (lms : List Landmark) (w h : ℚ),
      CalculateIrisDiameter rsqrt lms w h = diameterSpec rsqrt lms w h) ∧
    (∀ (center : Landmark) (focal iris_size w h : ℚ),
      CalculateDepth rsqrt center focal iris_size w h =
        depthSpec rsqrt center focal iris_size w h) := by
  constructor
  · intro lms w h
    have hv : GetLandmarkDepth rsqrt (lms.getD 1 dflt) (lms.getD 2 dflt) w h =
        chordSpec rsqrt (lms.getD 1 dflt) (lms.getD 2 dflt) w h := rfl
    have hh : GetLandmarkDepth rsqrt (lms.getD 3 dflt) (lms.getD 4 dflt) w h =
        chordSpec rsqrt (lms.getD 3 dflt) (lms.getD 4 dflt) w h := rfl
    show (GetLandmarkDepth rsqrt (lms.getD 3 dflt) (lms.getD 4 dflt) w h +
      GetLandmarkDepth rsqrt (lms.getD 1 dflt) (lms.getD 2 dflt) w h) / 2 = _
    rw [hv, hh]
    unfold diameterSpec
    ring
  · intro center focal iris_size w h
    rfl

section FaceIndexLemmas

lemma get?_some_iff_lt {α : Type} (l : List α) (n : ℕ) :
    (∃ a, l.get? n = some a) ↔ n < l.length := by
  constructor
  · rintro ⟨a, ha⟩
    by_contra hn
    rw [List.get?_eq_none.mpr (le_of_not_lt hn)] at ha
    cases ha
  · intro hn
    exact ⟨_, List.get?_eq_get hn⟩

lemma getFaceCorners_none_iff (lds : List Landmark) :
    getFaceCorners lds = none ↔ lds.length < 363 := by
  constructor
  · intro hnone
    by_contra hlen
    push_neg at hlen
    obtain ⟨a1, e1⟩ := (get?_some_iff_lt lds 263).mpr (by omega)
    obtain ⟨a2, e2⟩ := (get?_some_iff_lt lds 362).mpr (by omega)
    obtain ⟨a3, e3⟩ := (get?_some_iff_lt lds 133).mpr (by omega)
    obtain ⟨a4, e4⟩ := (get?_some_iff_lt lds 33).mpr (by omega)
    unfold getFaceCorners at hnone
    rw [e1, e2, e3, e4] at hnone
    simp at hnone
  · intro hlen
    have h362 : lds[362]? = none := by
      rw [← List.get?_eq_getElem?]
      exact List.get?_eq_none.mpr (by omega)
    cases h263 : lds[263]? with
    | none => simp [getFaceCorners, h263]
    | some a => simp [getFaceCorners, h263, h362]

end FaceIndexLemmas

/-- Claim C9: the four face-corner points are read at fixed indices 263,
362, 133, 33; extraction fails (returns no points, and `Process` fails
with an error) exactly when the face list is smaller than 363 entries,
and always succeeds when the list has at least 363 entries. The source
reads the landmarks through the protobuf accessor, whose out-of-range
access is a hard failure rather than a silent default — modelled here
as the `none` / error branch. -/
theorem face_index_bounds (rsqrt : ℚ → ℚ) :
    (∀ lds : List Landmark, getFaceCorners lds = none ↔ lds.length < 363) ∧
    (∀ lds : List Landmark, 363 ≤ lds.length → (getFaceCorners lds).isSome = true) ∧
    (∀ (inp : FrameInput) (s : DetState) iris face wh,
      inp.iris = some iris → iris.length = kNumIrisLandmarksPerEye * 2 →
      inp.imageSize = some wh → inp.face = some face → face.length < 363 →
      Process rsqrt inp s = PResult.err PErr.faceIndexOutOfRange s) := by
  refine ⟨getFaceCorners_none_iff, ?_, ?_⟩
  · intro lds hlen
    cases hfc : getFaceCorners lds with
    | none => exact absurd ((getFaceCorners_none_iff lds).mp hfc) (by omega)
    | some tup => rfl
  · intro inp s iris face wh hi hlen hsz hface hshort
    obtain ⟨oi, ofc, osz, old, ord⟩ := inp
    cases hi
    cases hsz
    cases hface
    have hfc : getFaceCorners face = none := (getFaceCorners_none_iff face).mpr hshort
    simp [Process, hlen, hfc]

/-- A face list with only 100 entries (too short for index 362). -/
def faceShort : List Landmark := List.replicate 100 lmZ

/-- A frame with a too-short face landmark list. -/
def frameShortFace : FrameInput :=
  ⟨some (List.replicate 10 lmZ), some faceShort, some (1, 1), none, none⟩

/-- Witness for C9: the concrete short face list triggers the error and
the 363-entry list succeeds. -/
theorem face_index_bounds_witness :
    Process sqrtId frameShortFace initState =
      PResult.err PErr.faceIndexOutOfRange initState ∧
    (getFaceCorners faceW).isSome = true :=
  ⟨(face_index_bounds sqrtId).2.2 frameShortFace initState _ _ _ rfl (by decide)
      rfl rfl (by decide),
   (face_index_bounds sqrtId).2.1 faceW (by decide)⟩

/-- Claim C10: the raw aggregate iris size fed to the smoothing filter
is the maximum of the two eye diameters; the whole detector block runs
only when that maximum is positive (otherwise state, deltas and lines
are all untouched); the millimeter scale factor applied to the
distances is 11.8 divided by the smoothed aggregate size; and on a
face-present valid frame the `Process` state is exactly the detector
block's state on the computed diameters. -/
theorem aggregate_max_scale (rsqrt : ℚ → ℚ) :
    (∀ lsz rsz : ℚ, rawPluIrisSize lsz rsz = max lsz rsz) ∧
    (∀ t_r n_r n_l t_l c_r c_l w h lsz rsz s, rawPluIrisSize lsz rsz ≤ 0 →
      detectorStep rsqrt t_r n_r n_l t_l c_r c_l w h lsz rsz s = (s, none, [])) ∧
    (∀ t_r n_r n_l t_l c_r c_l w h lsz rsz s, 0 < rawPluIrisSize lsz rsz →
      (detectorStep rsqrt t_r n_r n_l t_l c_r c_l w h lsz rsz s).1.plu_iris_size =
        emaUpd s.plu_iris_size (rawPluIrisSize lsz rsz) ∧
      mmScale (emaUpd s.plu_iris_size (rawPluIrisSize lsz rsz)) =
        kIrisSizeInMM / emaUpd s.plu_iris_size (rawPluIrisSize lsz rsz) ∧
      (detS1 rsqrt t_r n_r n_l t_l c_r c_l w h lsz rsz s).plu_dt_a_r_x =
        emaUpd s.plu_dt_a_r_x (rawDtX rsqrt t_r n_r
          (w * mmScale (emaUpd s.plu_iris_size (rawPluIrisSize lsz rsz))))) ∧
    (∀ (inp : FrameInput) (s : DetState) iris face wh t_r n_r n_l t_l,
      inp.iris = some iris → iris.length = kNumIrisLandmarksPerEye * 2 →
      inp.imageSize = some wh → inp.face = some face →
      getFaceCorners face = some (t_r, n_r, n_l, t_l) →
      stateOf (Process rsqrt inp s) =
        (detectorStep rsqrt t_r n_r n_l t_l
          ((GetRightIris iris).getD 0 dflt) ((GetLeftIris iris).getD 0 dflt)
          (wh.1 : ℚ) (wh.2 : ℚ)
          (CalculateIrisDiameter rsqrt (GetLeftIris iris) (wh.1 : ℚ) (wh.2 : ℚ))
          (CalculateIrisDiameter rsqrt (GetRightIris iris) (wh.1 : ℚ) (wh.2 : ℚ))
          s).1) := by
  refine ⟨?_, ?_, ?_, ?_⟩
  · intro lsz rsz
    unfold rawPluIrisSize
    rcases lt_or_le lsz rsz with hlt | hle
    · rw [if_pos hlt, max_eq_right hlt.le]
    · rw [if_neg (not_lt.mpr hle), max_eq_left hle]
  · intro t_r n_r n_l t_l c_r c_l w h lsz rsz s hraw
    exact detectorStep_of_not_pos rsqrt t_r n_r n_l t_l c_r c_l w h lsz rsz s
      (not_lt.mpr hraw)
  · intro t_r n_r n_l t_l c_r c_l w h lsz rsz s hraw
    refine ⟨?_, rfl, rfl⟩
    rw [detectorStep_of_pos rsqrt t_r n_r n_l t_l c_r c_l w h lsz rsz s hraw]
    dsimp only
    exact detFinal_plu_iris_size rsqrt t_r n_r n_l t_l c_r c_l w h lsz rsz s
  · intro inp s iris face wh t_r n_r n_l t_l hi hlen hsz hface hfc
    obtain ⟨oi, ofc, osz, old, ord⟩ := inp
    cases hi
    cases hsz
    cases hface
    simp [Process, hlen, hfc, stateOf]

/-- Witness for C10: the face-present dispatch at the concrete frame
`frameW`, plus the skip branch at zero diameters. -/
theorem aggregate_max_scale_witness :
    stateOf (Process sqrtId frameW initState) =
      (detectorStep sqrtId lmT lmZ lmZ lmZ
        ((GetRightIris irisW).getD 0 dflt) ((GetLeftIris irisW).getD 0 dflt)
        ((1 : ℤ) : ℚ) ((1 : ℤ) : ℚ)
        (CalculateIrisDiameter sqrtId (GetLeftIris irisW) ((1 : ℤ) : ℚ) ((1 : ℤ) : ℚ))
        (CalculateIrisDiameter sqrtId (GetRightIris irisW) ((1 : ℤ) : ℚ) ((1 : ℤ) : ℚ))
        initState).1 ∧
    detectorStep sqrtId lmZ lmZ lmZ lmZ lmZ lmZ 1 1 0 0 initState =
      (initState, none, []) :=
  ⟨(aggregate_max_scale sqrtId).2.2.2 frameW initState irisW faceW ((1 : ℤ), (1 : ℤ))
      lmT lmZ lmZ lmZ rfl (by decide) rfl rfl faceW_corners,
   (aggregate_max_scale sqrtId).2.1 lmZ lmZ lmZ lmZ lmZ lmZ 1 1 0 0 initState
      (by norm_num [rawPluIrisSize])⟩

/-- Claim C1: the baseline snapshot is written exactly once per pipeline
instance. For any reachable state `s` (obtained by running any frame
sequence from the initial state): (i) once the baseline gate
`last_plu_dt_a_r` is set (positive), no later frame sequence ever
changes any of the 18 baseline slots; (ii) on a frame where the
aggregate corner-to-corner channel `plu_dt_a_r` transitions from
uninitialized (non-positive, per the sentinel-or-positive data model) to
initialized (positive), all 18 current filter values are copied into the
baseline slots; (iii) while the channel stays non-positive, the baseline
slots are untouched. -/
theorem baseline_write_once (rsqrt : ℚ → ℚ) (hs : ∀ q, 0 ≤ q → 0 ≤ rsqrt q)
    (fs : List FrameInput) (s : DetState)
    (hreach : s = runFrames rsqrt initState fs) :
    (0 < s.last_plu_dt_a_r →
      ∀ gs, lastVec (runFrames rsqrt s gs) = lastVec s) ∧
    (∀ f, s.plu_dt_a_r ≤ 0 →
      0 < (stateOf (Process rsqrt f s)).plu_dt_a_r →
      lastVec (stateOf (Process rsqrt f s)) = filtVec (stateOf (Process rsqrt f s))) ∧
    (∀ f, (stateOf (Process rsqrt f s)).plu_dt_a_r ≤ 0 →
      lastVec (stateOf (Process rsqrt f s)) = lastVec s) := by
  have hINV : INV s := by
    rw [hreach]
    exact INV_run rsqrt hs fs initState INV_initState
  refine ⟨fun hl gs => run_last_of_pos rsqrt gs s hl, fun f hpre hpost => ?_, fun f hpost => ?_⟩
  · rcases process_state_eq_or_detector rsqrt f s with heq |
      ⟨t_r, n_r, n_l, t_l, c_r, c_l, w, h, lsz, rsz, heq⟩
    · rw [heq] at hpost
      exact absurd hpost (not_lt.mpr hpre)
    · by_cases hraw : 0 < rawPluIrisSize lsz rsz
      · rw [heq, detectorStep_of_pos rsqrt t_r n_r n_l t_l c_r c_l w h lsz rsz s hraw] at hpost ⊢
        have hl : s.last_plu_dt_a_r < 0 := by
          rcases hINV with ⟨hl, _⟩ | ⟨_, hp⟩
          · exact hl
          · exact absurd hp (not_lt.mpr hpre)
        have h1 : 0 < (detS1 rsqrt t_r n_r n_l t_l c_r c_l w h lsz rsz s).plu_dt_a_r := by
          rw [← detFinal_plu_dt_a_r]
          exact hpost
        exact (detFinal_freeze rsqrt t_r n_r n_l t_l c_r c_l w h lsz rsz s hl h1).1
      · rw [heq, detectorStep_of_not_pos rsqrt t_r n_r n_l t_l c_r c_l w h lsz rsz s hraw] at hpost
        exact absurd hpost (not_lt.mpr hpre)
  · rcases process_state_eq_or_detector rsqrt f s with heq |
      ⟨t_r, n_r, n_l, t_l, c_r, c_l, w, h, lsz, rsz, heq⟩
    · rw [heq]
    · by_cases hraw : 0 < rawPluIrisSize lsz rsz
      · rw [heq, detectorStep_of_pos rsqrt t_r n_r n_l t_l c_r c_l w h lsz rsz s hraw] at hpost ⊢
        exact detFinal_last_of_plu_nonpos rsqrt t_r n_r n_l t_l c_r c_l w h lsz rsz s hpost
      · rw [heq, detectorStep_of_not_pos rsqrt t_r n_r n_l t_l c_r c_l w h lsz rsz s hraw]

lemma processW_state : stateOf (Process sqrtId frameW initState) =
    (detectorStep sqrtId lmT lmZ lmZ lmZ lmZ lmZ 1 1
      (CalculateIrisDiameter sqrtId (GetLeftIris irisW) 1 1)
      (CalculateIrisDiameter sqrtId (GetRightIris irisW) 1 1) initState).1 := by
  simp [Process, frameW, faceW_corners, stateOf, irisW, GetRightIris, GetLeftIris,
    kNumIrisLandmarksPerEye, List.getD_cons_zero, List.getD_cons_succ]

lemma processW_plu_pos : 0 < (stateOf (Process sqrtId frameW initState)).plu_dt_a_r := by
  rw [processW_state]
  have hlsz : CalculateIrisDiameter sqrtId (GetLeftIris irisW) 1 1 = 1 / 2 := by
    norm_num [CalculateIrisDiameter, GetLeftIris, irisW, GetLandmarkDepth, GetDepth,
      sqrtId, lmZ, lmT, dflt, List.getD_cons_zero, List.getD_cons_succ]
  have hrsz : CalculateIrisDiameter sqrtId (GetRightIris irisW) 1 1 = 0 := by
    norm_num [CalculateIrisDiameter, GetRightIris, irisW, GetLandmarkDepth, GetDepth,
      sqrtId, lmZ, lmT, dflt, List.getD_cons_zero, List.getD_cons_succ]
  rw [hlsz, hrsz]
  have hraw : 0 < rawPluIrisSize (1 / 2 : ℚ) 0 := by norm_num [rawPluIrisSize]
  rw [detectorStep_of_pos sqrtId lmT lmZ lmZ lmZ lmZ lmZ 1 1 (1 / 2) 0 initState hraw,
    detFinal_plu_dt_a_r, detS1_plu_dt_a_r]
  norm_num [emaUpd, rawDtE, rawDtX, rawDtY, sqrtId, mmScale, rawPluIrisSize,
    initState, lmT, lmZ, kIrisSizeInMM, kDepthWeightUpdate]

/-- Witness for C1: on the concrete frame `frameW` from the initial
state, the transition fires and all 18 baseline slots equal the current
filter values. -/
theorem baseline_write_once_witness :
    lastVec (stateOf (Process sqrtId frameW initState)) =
      filtVec (stateOf (Process sqrtId frameW initState)) :=
  (baseline_write_once sqrtId sqrtId_nonneg [] initState rfl).2.1 frameW
    (by norm_num [initState]) processW_plu_pos

end IrisVerify
